import Mathlib

/-!
Verification development for the python-escea client library.

The development shallowly embeds the two source modules under scrutiny:

-   controller.py : the per-fireplace state machine (class Controller);
-   discovery.py  : the fleet coordinator (class DiscoveryService).

Effectful Python methods become pure Lean functions: each call takes the
current controller record, the current clock value (Python time() calls,
idealised as one integer clock value per call; only ordered-ring operations are applied to times), and an oracle listing the
outcome of each UDP exchange the call performs, and returns the new
record together with the list of observable events (wire frames sent and
discovery callbacks emitted) plus an optional Python exception.

The wire codec (message.py) and the UDP transport (datagram.py) are not
part of the sources; the small contract the two embedded modules rely on
is modelled from the specification where noted.
-/

namespace Pescea

/-! ## Constants (controller.py lines 20-41, discovery.py lines 16-17) -/

def REQUEST_TIMEOUT : ℤ := 5
def REFRESH_INTERVAL : ℤ := 30
def NOTIFY_REFRESH_INTERVAL : ℤ := 5 * 60
def RETRY_INTERVAL : ℤ := 10
def RETRY_TIMEOUT : ℤ := 60
def DISCONNECTED_INTERVAL : ℤ := 5 * 60
def ON_OFF_BUSY_WAIT_TIME : ℤ := 66
def DISCOVERY_SLEEP : ℤ := 60
def DISCOVERY_RESCAN : ℤ := 5

/-! ## Enumerations (controller.py lines 43-81) -/

/-- ControllerState enum, controller.py lines 43-64. -/
inductive ControllerState where
  | BUSY
  | READY
  | NON_RESPONSIVE
  | DISCONNECTED
deriving DecidableEq

/-- Fan enum, controller.py lines 66-70. -/
inductive Fan where
  | FLAME_EFFECT
  | AUTO
  | FAN_BOOST
deriving DecidableEq

/-- DictEntries enum, controller.py lines 72-81. -/
inductive DictEntries where
  | IP_ADDRESS
  | DEVICE_UID
  | CONTROLLER_STATE
  | HAS_NEW_TIMERS
  | FIRE_IS_ON
  | FAN_MODE
  | DESIRED_TEMP
  | CURRENT_TEMP
deriving DecidableEq

/-- The values stored in the controller settings dict
    (DictValue = Union of str, int, float, bool, Fan; controller.py line 86,
    with int standing for the numeric cases). -/
inductive DictValue where
  | str (s : String)
  | int (i : ℤ)
  | bool (b : Bool)
  | fan (f : Fan)
deriving DecidableEq

/-- Modelled from the spec: message.py is not among the sources. Spec section 3
    lists the enumerated operations the client may send. -/
inductive CommandID where
  | STATUS_PLEASE
  | POWER_ON
  | POWER_OFF
  | NEW_SET_TEMP
  | FAN_BOOST_ON
  | FAN_BOOST_OFF
  | FLAME_EFFECT_ON
  | FLAME_EFFECT_OFF
  | SEARCH_FOR_FIRES
deriving DecidableEq

/-- Modelled from the spec: message.py is not among the sources. Spec section 3
    lists the reply kinds: I_AM_A_FIRE, STATUS, and per-command acknowledgements. -/
inductive ResponseID where
  | STATUS
  | POWER_ON_ACK
  | POWER_OFF_ACK
  | NEW_SET_TEMP_ACK
  | FAN_BOOST_ON_ACK
  | FAN_BOOST_OFF_ACK
  | FLAME_EFFECT_ON_ACK
  | FLAME_EFFECT_OFF_ACK
  | I_AM_A_FIRE
deriving DecidableEq

/-- Modelled from the spec: message.py is not among the sources. Spec section 6
    states the codec exposes a table mapping each command to its single
    expected response kind. -/
def expected_response : CommandID → ResponseID
  | .STATUS_PLEASE => .STATUS
  | .POWER_ON => .POWER_ON_ACK
  | .POWER_OFF => .POWER_OFF_ACK
  | .NEW_SET_TEMP => .NEW_SET_TEMP_ACK
  | .FAN_BOOST_ON => .FAN_BOOST_ON_ACK
  | .FAN_BOOST_OFF => .FAN_BOOST_OFF_ACK
  | .FLAME_EFFECT_ON => .FLAME_EFFECT_ON_ACK
  | .FLAME_EFFECT_OFF => .FLAME_EFFECT_OFF_ACK
  | .SEARCH_FOR_FIRES => .I_AM_A_FIRE

/-- Modelled from the spec: message.py is not among the sources. Spec section 3
    gives the decoded fields of a reply: the reply kind, the STATUS payload
    fields, and the serial number carried by an I_AM_A_FIRE reply. Fields not
    meaningful for a given reply kind are simply never read. -/
structure FireplaceMessage where
  response_id : ResponseID
  fire_is_on : Bool
  fan_boost_is_on : Bool
  flame_effect : Bool
  desired_temp : ℤ
  current_temp : ℤ
  has_new_timers : Bool
  serial_number : String
deriving DecidableEq

/-! ## The wire oracle

    Every send_command call either raises ConnectionError or yields the map
    of responses keyed by source address (spec section 4.1); the embedding
    keeps the responses as a list in iteration order, since the code only
    ever reads next(iter(responses)). Each UDP exchange performed by a call
    consumes one outcome from the oracle list. -/

inductive SendOutcome where
  | ok (responses : List FireplaceMessage)
  | connError
deriving DecidableEq

/-- Pop the next exchange outcome; an exhausted oracle behaves as a failed
    exchange (theorems supply oracles of the right length). -/
def popEnv : List SendOutcome → SendOutcome × List SendOutcome
  | [] => (.connError, [])
  | o :: rest => (o, rest)

/-- The validity test the source applies to a send_command result
    (controller.py lines 366-368 and 455-456): at least one response arrived
    and the first response carries the expected response id. -/
def outcomeValid (o : SendOutcome) (cmd : CommandID) : Bool :=
  match o with
  | .ok (r :: _) => r.response_id = expected_response cmd
  | .ok [] => false
  | .connError => false

/-! ## Settings dict (controller.py lines 109-112)

    The dict maps DictEntries keys to values; a missing key is none.
    Reading a missing key raises KeyError in Python. -/

structure Settings where
  ip_address : Option DictValue
  device_uid : Option DictValue
  controller_state : Option DictValue
  has_new_timers : Option DictValue
  fire_is_on : Option DictValue
  fan_mode : Option DictValue
  desired_temp : Option DictValue
  current_temp : Option DictValue
deriving DecidableEq

def Settings.get (s : Settings) : DictEntries → Option DictValue
  | .IP_ADDRESS => s.ip_address
  | .DEVICE_UID => s.device_uid
  | .CONTROLLER_STATE => s.controller_state
  | .HAS_NEW_TIMERS => s.has_new_timers
  | .FIRE_IS_ON => s.fire_is_on
  | .FAN_MODE => s.fan_mode
  | .DESIRED_TEMP => s.desired_temp
  | .CURRENT_TEMP => s.current_temp

def Settings.set (s : Settings) (e : DictEntries) (v : DictValue) : Settings :=
  match e with
  | .IP_ADDRESS => { s with ip_address := some v }
  | .DEVICE_UID => { s with device_uid := some v }
  | .CONTROLLER_STATE => { s with controller_state := some v }
  | .HAS_NEW_TIMERS => { s with has_new_timers := some v }
  | .FIRE_IS_ON => { s with fire_is_on := some v }
  | .FAN_MODE => { s with fan_mode := some v }
  | .DESIRED_TEMP => { s with desired_temp := some v }
  | .CURRENT_TEMP => { s with current_temp := some v }

def emptySettings : Settings :=
  ⟨none, none, none, none, none, none, none, none⟩

/-- All keys the dict can hold; used to embed iteration over the dict
    (controller.py line 344). Order is irrelevant to the properties proved. -/
def allEntries : List DictEntries :=
  [.IP_ADDRESS, .DEVICE_UID, .CONTROLLER_STATE, .HAS_NEW_TIMERS,
   .FIRE_IS_ON, .FAN_MODE, .DESIRED_TEMP, .CURRENT_TEMP]

/-- Change detection loop of _refresh_system (controller.py lines 343-348):
    some entry of the live dict is absent from the prior dict or differs. -/
def changesFound (sys prior : Settings) : Bool :=
  allEntries.any fun e =>
    (sys.get e).isSome && ((prior.get e).isNone || decide (prior.get e ≠ sys.get e))

/-! ## Controller record

    The Python attributes of Controller that the embedded methods read or
    write. The asyncio plumbing (loop, condition, datagram object) has no
    bearing on the verified properties and is not represented. -/

structure Ctrl where
  system_settings : Settings
  prior_settings : Settings
  state : ControllerState
  last_response : ℤ
  busy_end_time : ℤ
  last_update : ℤ
  initialised : Bool
  closed : Bool
deriving DecidableEq

/-- Python exceptions the embedded code can raise. connectionError is listed
    because discovery.py catches it; the controller embedding never produces
    it (controller.py swallows ConnectionError at lines 372-373, 463-464,
    500-501). unknownSetting stands for the raise at controller.py line 449. -/
inductive PyErr where
  | keyError
  | unknownSetting
  | attributeError
  | connectionError
deriving DecidableEq

/-- Observable events of a controller call: a wire frame handed to
    send_command, or a callback into the discovery service. -/
inductive Event where
  | wire (c : CommandID)
  | controller_disconnected
  | controller_reconnected
  | controller_update
deriving DecidableEq

/-- Result of an effectful controller call: new controller record, events in
    emission order, remaining oracle, and the exception if one escaped. -/
structure Eff where
  ctrl : Ctrl
  events : List Event
  env : List SendOutcome
  err : Option PyErr
deriving DecidableEq

/-- Controller.__init__ (controller.py lines 89-118). The attributes _state,
    _last_response, _busy_end_time, _last_update are not assigned until
    initialize (lines 126-129); the record being total, they carry here the
    values initialize will assign, and no theorem reads them before
    initialize runs. -/
def newController (device_uid device_ip : String) : Ctrl :=
  { system_settings :=
      (emptySettings.set .IP_ADDRESS (.str device_ip)).set .DEVICE_UID (.str device_uid)
    prior_settings := emptySettings
    state := .READY
    last_response := 0
    busy_end_time := 0
    last_update := 0
    initialised := false
    closed := false }

/-! ## Public read accessors (controller.py lines 185-261)

    _get_system_state is a plain dict lookup (line 394); a missing key makes
    the Python property raise KeyError, embedded as none. -/

def getSystemState (c : Ctrl) (st : DictEntries) : Option DictValue :=
  c.system_settings.get st

def Ctrl.device_ip (c : Ctrl) : Option DictValue := c.system_settings.get .IP_ADDRESS

def Ctrl.device_uid (c : Ctrl) : Option DictValue := c.system_settings.get .DEVICE_UID

def Ctrl.is_on (c : Ctrl) : Option DictValue := getSystemState c .FIRE_IS_ON

def Ctrl.fan (c : Ctrl) : Option DictValue := getSystemState c .FAN_MODE

def Ctrl.desired_temp (c : Ctrl) : Option DictValue := getSystemState c .DESIRED_TEMP

def Ctrl.current_temp (c : Ctrl) : Option DictValue := getSystemState c .CURRENT_TEMP

/-! ## _set_system_state (controller.py lines 396-514) -/

/-- Python truthiness of a stored value, used by the line 419 test. -/
def pythonTruthy : DictValue → Bool
  | .str s => s ≠ ""
  | .int i => i ≠ 0
  | .bool b => b
  | .fan _ => true

/-- PART 1 command for a fan change (controller.py lines 427-446): always
    turn off the boolean that is not the target. A value that matches none
    of the three Fan members leaves the command unset, exactly as the
    if-elif chain does. -/
def fanStep1 (value : DictValue) : Option CommandID :=
  if value = .fan .AUTO then some .FAN_BOOST_OFF
  else if value = .fan .FAN_BOOST then some .FLAME_EFFECT_OFF
  else if value = .fan .FLAME_EFFECT then some .FAN_BOOST_OFF
  else none

/-- PART 2 command for a fan change (controller.py lines 470-488): the final
    else arm catches every value other than AUTO and FAN_BOOST. -/
def fanStep2 (value : DictValue) : CommandID :=
  if value = .fan .AUTO then .FLAME_EFFECT_OFF
  else if value = .fan .FAN_BOOST then .FAN_BOOST_ON
  else .FLAME_EFFECT_ON

/-- Command selection, controller.py lines 416-449. The outer none encodes
    reaching the else arm at line 448, whose raise the caller turns into the
    unknownSetting exception; some cmd is the value of the command variable
    after the chain (itself an Option because the fan chain can leave the
    variable at None). -/
def part1Command (st : DictEntries) (value : DictValue) : Option (Option CommandID) :=
  if st = .FIRE_IS_ON then
    some (some (if pythonTruthy value then .POWER_ON else .POWER_OFF))
  else if st = .DESIRED_TEMP then
    some (some .NEW_SET_TEMP)
  else if st = .FAN_MODE then
    some (fanStep1 value)
  else
    none

/-- Result of the body of _set_system_state up to line 505: the record,
    the wire events sent, the remaining oracle, the exception if any, and
    whether control reached line 507 (no early return, no raise). -/
structure EffA where
  ctrl : Ctrl
  events : List Event
  env : List SendOutcome
  err : Option PyErr
  reached_end : Bool
deriving DecidableEq

/-- One send_command step of _set_system_state (controller.py lines 451-468
    and 490-505): send, test validity, record last_response on success.
    The wire frame is emitted whether or not a valid response returns. -/
def sendStep (c : Ctrl) (now : ℤ) (cmd : CommandID) (env : List SendOutcome) :
    Ctrl × Bool × List SendOutcome :=
  let p := popEnv env
  let valid := outcomeValid p.1 cmd
  (if valid then { c with last_response := now } else c, valid, p.2)

/-- PART 2 block of _set_system_state (controller.py lines 470-505), reached
    after PART 1 (if any) succeeded or was skipped. Only a FAN_MODE change
    has a PART 2; every other setting falls through to line 507. -/
def setPart2 (c : Ctrl) (now : ℤ) (st : DictEntries) (value : DictValue)
    (evs : List Event) (env : List SendOutcome) : EffA :=
  if st = .FAN_MODE then
    let cmd := fanStep2 value
    let s := sendStep c now cmd env
    if s.2.1 then ⟨s.1, evs ++ [.wire cmd], s.2.2, none, true⟩
    else ⟨s.1, evs ++ [.wire cmd], s.2.2, none, false⟩
  else
    ⟨c, evs, env, none, true⟩

/-- Body of _set_system_state up to line 505 (controller.py lines 396-505).
    The dict read of the current value happens on every path that enters the
    body: line 399 for sync false, and the eager argument evaluation of the
    debug log at line 405 for sync true; a missing key is a KeyError either
    way. -/
def setPartA (c : Ctrl) (now : ℤ) (st : DictEntries) (value : DictValue)
    (sync : Bool) (env : List SendOutcome) : EffA :=
  match c.system_settings.get st with
  | none => ⟨c, [], env, some .keyError, false⟩
  | some current =>
    if ¬sync ∧ current = value then
      -- line 399-400: value already matches and we are not forcing the sync
      ⟨c, [], env, none, false⟩
    else
      -- line 410: save the new value internally
      let c1 := { c with system_settings := c.system_settings.set st value }
      if ¬sync ∧ c1.state ≠ .READY then
        -- lines 412-414: buffered, not sent
        ⟨c1, [], env, none, false⟩
      else
        match part1Command st value with
        | none => ⟨c1, [], env, some .unknownSetting, false⟩
        | some cmd? =>
          match cmd? with
          | some cmd =>
            let s := sendStep c1 now cmd env
            if s.2.1 then setPart2 s.1 now st value [.wire cmd] s.2.2
            else
              -- line 468: no valid response, return
              ⟨s.1, [.wire cmd], s.2.2, none, false⟩
          | none => setPart2 c1 now st value [] env

/-- _set_system_state called with sync=True (the reconciliation calls inside
    _refresh_system, controller.py lines 323, 332, 337). With sync set the
    trailing refresh at lines 508-509 is skipped, and only the FIRE_IS_ON
    case enters BUSY at lines 512-514. -/
def setSystemStateSync (c : Ctrl) (now : ℤ) (st : DictEntries) (value : DictValue)
    (env : List SendOutcome) : Eff :=
  let a := setPartA c now st value true env
  if a.err.isSome then ⟨a.ctrl, a.events, a.env, a.err⟩
  else if ¬a.reached_end then ⟨a.ctrl, a.events, a.env, none⟩
  else if st = .FIRE_IS_ON then
    ⟨{ a.ctrl with state := .BUSY, busy_end_time := now + ON_OFF_BUSY_WAIT_TIME },
      a.events, a.env, none⟩
  else ⟨a.ctrl, a.events, a.env, none⟩

/-! ## _request_status and _refresh_system (controller.py lines 263-377) -/

/-- Result of _request_status: record, decoded response if a valid one came
    back, the wire event, remaining oracle. -/
structure StatusEff where
  ctrl : Ctrl
  response : Option FireplaceMessage
  events : List Event
  env : List SendOutcome
deriving DecidableEq

/-- Fallthrough of _request_status (controller.py lines 374-377): no valid
    response received, move to NON_RESPONSIVE unless already DISCONNECTED. -/
def requestStatusFail (c : Ctrl) (env1 : List SendOutcome) : StatusEff :=
  ⟨if c.state ≠ .DISCONNECTED then { c with state := .NON_RESPONSIVE } else c,
    none, [.wire .STATUS_PLEASE], env1⟩

/-- _request_status (controller.py lines 363-377). -/
def requestStatus (c : Ctrl) (now : ℤ) (env : List SendOutcome) : StatusEff :=
  let p := popEnv env
  match p.1 with
  | .ok (r :: _) =>
    if r.response_id = expected_response .STATUS_PLEASE then
      ⟨{ c with last_response := now }, some r, [.wire .STATUS_PLEASE], p.2⟩
    else requestStatusFail c p.2
  | .ok [] => requestStatusFail c p.2
  | .connError => requestStatusFail c p.2

/-- Fan mode derived from the two STATUS booleans (controller.py lines
    308-313 and 325-330). -/
def responseFan (r : FireplaceMessage) : Fan :=
  if r.fan_boost_is_on then .FAN_BOOST
  else if r.flame_effect then .FLAME_EFFECT
  else .AUTO

/-- Notify block of _refresh_system (controller.py lines 342-353). -/
def notifyPart (c : Ctrl) (now : ℤ) (notify : Bool) : Ctrl × List Event :=
  if notify then
    if changesFound c.system_settings c.prior_settings
        ∨ now - c.last_update > NOTIFY_REFRESH_INTERVAL then
      ({ c with last_update := now, prior_settings := c.system_settings },
        [.controller_update])
    else (c, [])
  else (c, [])

/-- One reconciliation comparison of _refresh_system (controller.py lines
    322-323, 331-332, 335-337): read the buffered value (KeyError when the
    key was never filled in), and when the device reports a different value
    push the buffered one with a sync setter. -/
def reconcileField (c : Ctrl) (now : ℤ) (st : DictEntries) (respVal : DictValue)
    (env : List SendOutcome) : Eff :=
  match c.system_settings.get st with
  | none => ⟨c, [], env, some .keyError⟩
  | some cur =>
    if respVal ≠ cur then setSystemStateSync c now st cur env
    else ⟨c, [], env, none⟩

/-- Lines 298-302 of controller.py: the controller is communicating, so
    the state is READY again and the read-only fields of the STATUS reply
    are copied in any case. -/
def statusReadonlyCopy (c0 : Ctrl) (r : FireplaceMessage) : Ctrl :=
  { c0 with state := .READY, system_settings := (c0.system_settings.set .HAS_NEW_TIMERS (.bool r.has_new_timers)).set .CURRENT_TEMP (.int r.current_temp) }

/-- Lines 307-314 of controller.py: the remaining STATUS fields copied
    into the live settings during normal operation. -/
def statusFullCopy (c : Ctrl) (r : FireplaceMessage) : Ctrl :=
  { c with system_settings := ((c.system_settings.set .DESIRED_TEMP (.int r.desired_temp)).set .FAN_MODE (.fan (responseFan r))).set .FIRE_IS_ON (.bool r.fire_is_on) }

/-- Valid-response branch of _refresh_system (controller.py lines 295-353),
    entered with the state already updated by _request_status and the prior
    state saved. -/
def refreshValid (c0 : Ctrl) (now : ℤ) (prior : ControllerState)
    (r : FireplaceMessage) (env : List SendOutcome) (notify : Bool) : Eff :=
  let c2 := statusReadonlyCopy c0 r
  if prior = .READY then
    -- lines 304-314: normal operation, copy the remaining fields
    let n := notifyPart (statusFullCopy c2 r) now notify
    ⟨n.1, n.2, env, none⟩
  else
    -- lines 316-340: back to READY, sync the fireplace with the buffered intent
    let e1 := reconcileField c2 now .DESIRED_TEMP (.int r.desired_temp) env
    match e1.err with
    | some er => ⟨e1.ctrl, e1.events, e1.env, some er⟩
    | none =>
      let e2 := reconcileField e1.ctrl now .FAN_MODE (.fan (responseFan r)) e1.env
      match e2.err with
      | some er => ⟨e2.ctrl, e1.events ++ e2.events, e2.env, some er⟩
      | none =>
        -- power is done last (lines 334-337)
        let e3 := reconcileField e2.ctrl now .FIRE_IS_ON (.bool r.fire_is_on) e2.env
        match e3.err with
        | some er => ⟨e3.ctrl, e1.events ++ e2.events ++ e3.events, e3.env, some er⟩
        | none =>
          let reconEvs := if prior = .DISCONNECTED then [Event.controller_reconnected] else []
          let n := notifyPart e3.ctrl now notify
          ⟨n.1, e1.events ++ e2.events ++ e3.events ++ reconEvs ++ n.2, e3.env, none⟩

/-- No-response branch of _refresh_system (controller.py lines 354-361). -/
def refreshFail (s : StatusEff) (prior : ControllerState) (now : ℤ) : Eff :=
  if now - s.ctrl.last_response < RETRY_TIMEOUT then
    ⟨{ s.ctrl with state := .NON_RESPONSIVE }, s.events, s.env, none⟩
  else
    ⟨{ s.ctrl with state := .DISCONNECTED },
      s.events ++ (if prior ≠ .DISCONNECTED then [Event.controller_disconnected] else []),
      s.env, none⟩

/-- _refresh_system (controller.py lines 263-361). -/
def refreshSystem (c : Ctrl) (now : ℤ) (env : List SendOutcome) (notify : Bool) : Eff :=
  if c.state = .BUSY ∧ now < c.busy_end_time then
    -- line 290-291: still in the busy window
    ⟨c, [], env, none⟩
  else
    let prior := c.state
    let s := requestStatus c now env
    match s.response with
    | some r =>
      if r.response_id = .STATUS then
        let e := refreshValid s.ctrl now prior r s.env notify
        ⟨e.ctrl, s.events ++ e.events, e.env, e.err⟩
      else refreshFail s prior now
    | none => refreshFail s prior now

/-- _set_system_state (controller.py lines 396-514), general entry. When
    sync is false and the body completed, a refresh follows immediately
    (lines 507-509); a FIRE_IS_ON change finally enters BUSY (lines
    512-514). An exception out of the nested refresh propagates, skipping
    the BUSY step. -/
def setSystemState (c : Ctrl) (now : ℤ) (st : DictEntries) (value : DictValue)
    (sync : Bool) (env : List SendOutcome) : Eff :=
  if sync then setSystemStateSync c now st value env
  else
    let a := setPartA c now st value false env
    if a.err.isSome then ⟨a.ctrl, a.events, a.env, a.err⟩
    else if ¬a.reached_end then ⟨a.ctrl, a.events, a.env, none⟩
    else
      let rfr := refreshSystem a.ctrl now a.env true
      if rfr.err.isSome then ⟨rfr.ctrl, a.events ++ rfr.events, rfr.env, rfr.err⟩
      else if st = .FIRE_IS_ON then
        ⟨{ rfr.ctrl with state := .BUSY, busy_end_time := now + ON_OFF_BUSY_WAIT_TIME },
          a.events ++ rfr.events, rfr.env, none⟩
      else ⟨rfr.ctrl, a.events ++ rfr.events, rfr.env, none⟩

/-! ## Public setters (controller.py lines 209-246) -/

def set_on (c : Ctrl) (now : ℤ) (value : Bool) (env : List SendOutcome) : Eff :=
  setSystemState c now .FIRE_IS_ON (.bool value) false env

def set_fan (c : Ctrl) (now : ℤ) (value : Fan) (env : List SendOutcome) : Eff :=
  setSystemState c now .FAN_MODE (.fan value) false env

/-- Python round(value): round half to even, on the idealised rational
    input. Written with integer operations on the reduced fraction: with
    f the floor of q and r the numerator remainder, the fractional part of
    q compares to one half as 2 * r compares to the denominator. -/
def pyRound (q : ℚ) : ℤ :=
  let n := q.num
  let d : ℤ := (q.den : ℤ)
  let f := Int.fdiv n d
  let r := n - f * d
  if 2 * r < d then f
  else if d < 2 * r then f + 1
  else if f % 2 = 0 then f else f + 1

/-- set_desired_temp (controller.py lines 233-246). MIN_SET_TEMP and
    MAX_SET_TEMP live in the absent message.py; they are passed as
    parameters. -/
def set_desired_temp (c : Ctrl) (now : ℤ) (minSetTemp maxSetTemp : ℤ) (value : ℚ)
    (env : List SendOutcome) : Eff :=
  let degrees := pyRound value
  if degrees < minSetTemp ∨ degrees > maxSetTemp then
    -- lines 242-244: logged error, no state change
    ⟨c, [], env, none⟩
  else
    setSystemState c now .DESIRED_TEMP (.int degrees) false env

/-! ## initialize (controller.py lines 120-140) -/

/-- Result of initialize: poll_started records whether line 140 was reached
    and the poll loop task created. -/
structure InitEff where
  ctrl : Ctrl
  events : List Event
  env : List SendOutcome
  err : Option PyErr
  poll_started : Bool
deriving DecidableEq

/-- Attribute assignments at the top of initialize (controller.py lines
    126-132). -/
def initAttrs (c : Ctrl) : Ctrl :=
  { c with state := .READY, last_response := 0, busy_end_time := 0,
           last_update := 0, closed := false }

/-- Controller.initialize (controller.py lines 120-140): assign the state
    attributes, run one refresh with notify false, then mark initialised and
    start the poll loop. An exception out of the refresh propagates. -/
def initializeController (c0 : Ctrl) (now : ℤ) (env : List SendOutcome) : InitEff :=
  let e := refreshSystem (initAttrs c0) now env false
  match e.err with
  | some er => ⟨e.ctrl, e.events, e.env, some er, false⟩
  | none => ⟨{ e.ctrl with initialised := true }, e.events, e.env, none, true⟩

/-! ## refresh_address (controller.py lines 379-391) -/

/-- refresh_address: update the stored address when it changed; the returned
    flag records whether the wakeup task for the poll loop was created. -/
def refreshAddress (c : Ctrl) (addr : String) : Ctrl × Bool :=
  if c.system_settings.get .IP_ADDRESS = some (.str addr) then (c, false)
  else ({ c with system_settings := c.system_settings.set .IP_ADDRESS (.str addr) }, true)

/-! ## Discovery service (discovery.py)

    The embedded state of DiscoveryService: the controllers dict (an
    association list keyed by serial number), the disconnected set, the
    registered listeners (numbered), and whether _close_task has been set.
    The loop, datagram object and task list are asyncio plumbing. -/

structure Disco where
  controllers : List (String × Ctrl)
  disconnected : List String
  listeners : List ℕ
  close_task : Bool
deriving DecidableEq

/-- Kinds of task handed to create_task by the embedded discovery code. -/
inductive TaskKind where
  | init_controller (uid : String)
  | rescan
  | scan_loop
deriving DecidableEq

/-- Observable events of a discovery call: wire frames, task creation, a
    task dying on an uncaught exception, and listener callbacks. -/
inductive DEvent where
  | wire (c : CommandID)
  | task_spawned (t : TaskKind)
  | task_failed (e : PyErr)
  | listener_discovered (listener : ℕ) (uid : String)
  | listener_disconnected (listener : ℕ) (uid : String)
  | listener_reconnected (listener : ℕ) (uid : String)
  | listener_update (listener : ℕ) (uid : String)
deriving DecidableEq

/-- Result of an effectful discovery call: new service state, events, and
    the exception if one escaped the call itself (exceptions inside spawned
    tasks surface as task_failed events instead, logged by
    _task_done_callback at discovery.py lines 154-157). -/
structure DEff where
  disco : Disco
  events : List DEvent
  err : Option PyErr
deriving DecidableEq

/-- The attribute names an instance of class Controller resolves: the names
    bound in the class body of controller.py (methods and properties, lines
    83-514) plus the instance attributes assigned in __init__ and
    initialize. Python resolves controller._initialize and
    controller._refresh_address (discovery.py lines 296 and 309) against
    this set at call time. -/
def controllerAttrNames : List String :=
  ["__init__", "initialize", "close", "_poll_loop", "device_ip", "device_uid",
   "discovery", "state", "is_on", "set_on", "fan", "set_fan", "desired_temp",
   "set_desired_temp", "current_temp", "min_temp", "max_temp",
   "_refresh_system", "_request_status", "refresh_address",
   "_get_system_state", "_set_system_state",
   "_discovery", "_system_settings", "_prior_settings", "_datagram",
   "_loop_interrupt_condition", "_initialised", "_state", "_last_response",
   "_busy_end_time", "_last_update", "_closed"]

/-- controller_discovered dispatch (discovery.py lines 184-190): every
    registered listener is called, each call wrapped by LogExceptions. -/
def dispatchDiscovered (d : Disco) (uid : String) : List DEvent :=
  d.listeners.map fun l => DEvent.listener_discovered l uid

/-- Body of the initialize_controller task (discovery.py lines 294-304).
    Its first statement awaits controller._initialize(); the branch on
    controllerAttrNames embeds the attribute lookup. The name is absent
    (class Controller defines initialize, controller.py line 120), so the
    live path raises AttributeError; the except clause catches only
    ConnectionError, hence lines 303-304 never run. The other branch spells
    out what the task would do if the name resolved to the initializer. -/
def initControllerTask (d : Disco) (device_uid device_ip : String) (now : ℤ)
    (env : List SendOutcome) : DEff :=
  if controllerAttrNames.contains "_initialize" then
    let e := initializeController (newController device_uid device_ip) now env
    if e.err = some .connectionError then
      -- lines 297-301: warn and return without registering
      ⟨d, [], none⟩
    else
      match e.err with
      | some er => ⟨d, [], some er⟩
      | none =>
        let d1 := { d with controllers := d.controllers ++ [(device_uid, e.ctrl)] }
        ⟨d1, dispatchDiscovered d1 device_uid, none⟩
  else
    ⟨d, [], some .attributeError⟩

/-- _discovery_received (discovery.py lines 284-309). For a new serial the
    spawned task body is inlined right after its creation event, its
    uncaught exception becoming a task_failed event. For a known serial the
    call resolves controller._refresh_address synchronously, so the
    AttributeError escapes _discovery_received itself. -/
def discoveryReceived (d : Disco) (data : FireplaceMessage) (addr : String)
    (now : ℤ) (env : List SendOutcome) : DEff :=
  let device_uid := data.serial_number
  if ¬ d.controllers.any (fun p => p.1 = device_uid) then
    let t := initControllerTask d device_uid addr now env
    ⟨t.disco,
      DEvent.task_spawned (.init_controller device_uid) ::
        (t.events ++ (match t.err with
          | some er => [DEvent.task_failed er]
          | none => [])),
      none⟩
  else
    if controllerAttrNames.contains "_refresh_address" then
      -- what the call would do if the name resolved to refresh_address
      let d1 := { d with controllers := d.controllers.map fun p =>
        if p.1 = device_uid then (p.1, (refreshAddress p.2 addr).1) else p }
      ⟨d1, [], none⟩
    else
      ⟨d, [], some .attributeError⟩

/-- One reply of a broadcast wave: source address, decoded message, and the
    oracle handed to the initializer the reply may trigger. -/
structure BroadcastReply where
  addr : String
  data : FireplaceMessage
  env : List SendOutcome
deriving DecidableEq

/-- Outcome of the broadcast exchange in _send_broadcast. Modelled from the
    spec for the absent datagram.py: the transport returns the collected
    replies keyed by source address, possibly none, or times out. -/
inductive BroadcastOutcome where
  | replies (rs : List BroadcastReply)
  | timeout
deriving DecidableEq

/-- The reply loop of _send_broadcast (discovery.py lines 246-247); an
    exception out of _discovery_received stops the loop and escapes. -/
def processReplies (d : Disco) (now : ℤ) : List BroadcastReply → DEff
  | [] => ⟨d, [], none⟩
  | rep :: rest =>
    let e := discoveryReceived d rep.data rep.addr now rep.env
    match e.err with
    | some er => ⟨e.disco, e.events, some er⟩
    | none =>
      let e2 := processReplies e.disco now rest
      ⟨e2.disco, e.events ++ e2.events, e2.err⟩

/-- _send_broadcast (discovery.py lines 241-250): one SEARCH_FOR_FIRES
    frame, then each reply is handed to _discovery_received; a transport
    timeout is re-raised as ConnectionError. -/
def sendBroadcast (d : Disco) (now : ℤ) (o : BroadcastOutcome) : DEff :=
  match o with
  | .timeout => ⟨d, [.wire .SEARCH_FOR_FIRES], some .connectionError⟩
  | .replies rs =>
    let e := processReplies d now rs
    ⟨e.disco, DEvent.wire .SEARCH_FOR_FIRES :: e.events, e.err⟩

/-- start_discovery (discovery.py lines 222-223): the entire body is one
    awaited _send_broadcast; no task of any kind is created here. -/
def startDiscovery (d : Disco) (now : ℤ) (o : BroadcastOutcome) : DEff :=
  sendBroadcast d now o

/-- The sleep chosen by one _scan_loop iteration (discovery.py lines
    230-232): the Python set is truthy exactly when non-empty. -/
def scanSleep (d : Disco) : ℤ :=
  if d.disconnected ≠ [] then DISCOVERY_RESCAN else DISCOVERY_SLEEP

/-- close (discovery.py lines 261-263): the body only awaits the tracked
    tasks; in particular _close_task is never assigned. -/
def closeDisco (d : Disco) : Disco := d

/-! ## Observation helpers used by the theorem statements -/

def isWireEvent : Event → Bool
  | .wire _ => true
  | _ => false

def isDWireEvent : DEvent → Bool
  | .wire _ => true
  | _ => false

/-- The connectivity callbacks among the events of a controller call. -/
def isConnEvent : Event → Bool
  | .controller_disconnected => true
  | .controller_reconnected => true
  | _ => false

/-- An event list made only of wire frames. -/
def wireOnly (l : List Event) : Bool := l.all isWireEvent

def connFilter (l : List Event) : List Event := l.filter isConnEvent

def countEvent (ev : Event) (l : List Event) : ℕ :=
  (l.filter fun e => e = ev).length

/-- Whether the next exchange outcome satisfies the full validity test of
    the status fetch path: the test of _request_status (controller.py line
    368) together with the re-test at line 295. -/
def validStatusEnv (env : List SendOutcome) : Bool :=
  match (popEnv env).1 with
  | .ok (r :: _) =>
    (r.response_id = expected_response .STATUS_PLEASE) ∧ (r.response_id = .STATUS)
  | .ok [] => false
  | .connError => false

/-- All STATUS replies an oracle can deliver as the first response of one
    of its exchanges. -/
def envStatusResponses (env : List SendOutcome) : List FireplaceMessage :=
  env.foldr
    (fun o acc =>
      match o with
      | .ok (r :: _) => if r.response_id = .STATUS then r :: acc else acc
      | _ => acc)
    []

/-- The command pair table of the fan-mode setter as the specification
    states it. -/
def fanPair1 : Fan → CommandID
  | .AUTO => .FAN_BOOST_OFF
  | .FAN_BOOST => .FLAME_EFFECT_OFF
  | .FLAME_EFFECT => .FAN_BOOST_OFF

def fanPair2 : Fan → CommandID
  | .AUTO => .FLAME_EFFECT_OFF
  | .FAN_BOOST => .FAN_BOOST_ON
  | .FLAME_EFFECT => .FLAME_EFFECT_ON

/-- One iteration of the poll loop body: the inputs of one _refresh_system
    call (controller.py line 156). -/
structure RefreshStep where
  now : ℤ
  env : List SendOutcome
  notify : Bool

/-- Result of folding a sequence of refresh calls: final record,
    concatenated events, and the exception that stopped the sequence, if
    any (the poll loop exits on the first exception, controller.py lines
    155-161). -/
structure PollRun where
  ctrl : Ctrl
  events : List Event
  err : Option PyErr

def runRefreshes (c : Ctrl) : List RefreshStep → PollRun
  | [] => ⟨c, [], none⟩
  | s :: rest =>
    let e := refreshSystem c s.now s.env s.notify
    match e.err with
    | some er => ⟨e.ctrl, e.events, some er⟩
    | none =>
      let k := runRefreshes e.ctrl rest
      ⟨k.ctrl, e.events ++ k.events, k.err⟩

/-- Invariant tying a DISCONNECTED controller to the clock: the state was
    entered because at least RETRY_TIMEOUT had passed since the last valid
    reply, and failed polls do not advance last_response. -/
def DiscInv (c : Ctrl) (t : ℤ) : Prop :=
  c.state = .DISCONNECTED → RETRY_TIMEOUT ≤ t - c.last_response

/-- Strict alternation of the connectivity events: the flag is true when
    the next such event must be controller_disconnected. -/
def altFrom : Bool → List Event → Bool
  | _, [] => true
  | true, .controller_disconnected :: rest => altFrom false rest
  | false, .controller_reconnected :: rest => altFrom true rest
  | _, _ => false

/-! ## Concrete fixtures for witnesses and counterexamples -/

/-- A STATUS reply reporting fire on, both fan booleans off, desired 22,
    current 20. -/
def statusMsg : FireplaceMessage :=
  ⟨.STATUS, true, false, false, 22, 20, false, "S"⟩

/-- A controller as the poll loop sees it after the initialization fetch
    failed: state attributes assigned, state DISCONNECTED, and only
    IP_ADDRESS and DEVICE_UID present in the settings. -/
def c6DiscCtrl : Ctrl :=
  { initAttrs (newController "S" "192.168.0.2") with state := .DISCONNECTED }

/-- An acknowledgement reply of the given kind. -/
def ackMsg (rid : ResponseID) : FireplaceMessage :=
  ⟨rid, false, false, false, 0, 0, false, ""⟩

/-- A controller as it stands after a successful initialization fetch of
    statusMsg: READY with every settings entry populated. -/
def sampleReady : Ctrl :=
  { system_settings :=
      ((((((emptySettings.set .IP_ADDRESS (.str "ip")).set
        .DEVICE_UID (.str "S")).set
        .HAS_NEW_TIMERS (.bool false)).set
        .FIRE_IS_ON (.bool true)).set
        .FAN_MODE (.fan .AUTO)).set
        .DESIRED_TEMP (.int 22)).set
        .CURRENT_TEMP (.int 20)
    prior_settings := emptySettings
    state := .READY
    last_response := 50
    busy_end_time := 0
    last_update := 0
    initialised := true
    closed := false }

/-- sampleReady with the fan cached at FAN_BOOST. -/
def sampleReadyBoost : Ctrl :=
  { sampleReady with system_settings :=
      sampleReady.system_settings.set .FAN_MODE (.fan .FAN_BOOST) }

/-- A discovery service with two listeners and no controllers yet. -/
def sampleDisco : Disco := ⟨[], [], [0, 1], false⟩

/-! ## Helper lemmas -/

theorem settings_get_set (s : Settings) (e e2 : DictEntries) (v : DictValue) :
    (s.set e v).get e2 = if e2 = e then some v else s.get e2 := by
  cases e <;> cases e2 <;> simp [Settings.set, Settings.get]

/-- The guard at controller.py lines 290-291: a BUSY controller inside its
    busy window refreshes to itself without any effect. -/
theorem refresh_busy (c : Ctrl) (now : ℤ) (env : List SendOutcome) (notify : Bool)
    (hs : c.state = .BUSY) (ht : now < c.busy_end_time) :
    refreshSystem c now env notify = ⟨c, [], env, none⟩ := by
  unfold refreshSystem
  rw [if_pos ⟨hs, ht⟩]

/-- The guard at controller.py lines 399-400: a non-sync setter whose value
    matches the cached one returns before any effect. -/
theorem setState_noop (c : Ctrl) (now : ℤ) (st : DictEntries) (v : DictValue)
    (env : List SendOutcome) (h : c.system_settings.get st = some v) :
    setSystemState c now st v false env = ⟨c, [], env, none⟩ := by
  unfold setSystemState setPartA
  rw [h]
  simp

/-! ## C4 -/

/-- C4: whenever the controller state is BUSY and the current time is still
    before busy_end_time, the refresh path returns immediately: no wire
    frame is sent, no event is emitted, and neither the controller state
    nor the live settings change. -/
theorem c4_busy_refresh_is_noop (c : Ctrl) (now : ℤ) (env : List SendOutcome)
    (notify : Bool) (hs : c.state = .BUSY) (ht : now < c.busy_end_time) :
    refreshSystem c now env notify = ⟨c, [], env, none⟩ :=
  refresh_busy c now env notify hs ht

/-- Witness for C4 at a concrete BUSY controller inside its busy window. -/
theorem c4_busy_refresh_is_noop_witness :
    refreshSystem { sampleReady with state := .BUSY, busy_end_time := 100 } 60
        [.connError] true
      = ⟨{ sampleReady with state := .BUSY, busy_end_time := 100 }, [],
          [.connError], none⟩ :=
  c4_busy_refresh_is_noop _ 60 [.connError] true (by decide) (by decide)

theorem notifyPart_fst_settings (c : Ctrl) (now : ℤ) (b : Bool) :
    (notifyPart c now b).1.system_settings = c.system_settings := by
  unfold notifyPart
  split
  · split <;> rfl
  · rfl

theorem notifyPart_fst_state (c : Ctrl) (now : ℤ) (b : Bool) :
    (notifyPart c now b).1.state = c.state := by
  unfold notifyPart
  split
  · split <;> rfl
  · rfl

/-- In the success scenario of a set_fan AUTO call (both acknowledgements
    arrive, the follow-up STATUS reports both fan booleans off), the first
    wire frame is FAN_BOOST_OFF and the cached fan mode ends at AUTO. -/
theorem set_fan_auto_scenario (c : Ctrl) (now : ℤ) (f : Fan)
    (a1 a2 r : FireplaceMessage)
    (hst : c.state = .READY)
    (hfan : c.system_settings.get .FAN_MODE = some (.fan f)) (hne : f ≠ .AUTO)
    (h1 : a1.response_id = .FAN_BOOST_OFF_ACK)
    (h2 : a2.response_id = .FLAME_EFFECT_OFF_ACK)
    (hr : r.response_id = .STATUS) (hb : r.fan_boost_is_on = false)
    (hfl : r.flame_effect = false) :
    (set_fan c now .AUTO [.ok [a1], .ok [a2], .ok [r]]).events.head?
        = some (.wire .FAN_BOOST_OFF)
    ∧ (set_fan c now .AUTO [.ok [a1], .ok [a2], .ok [r]]).ctrl.system_settings.get
        .FAN_MODE = some (.fan .AUTO) := by
  have hval : (DictValue.fan f) ≠ (DictValue.fan .AUTO) := by
    intro h
    exact hne (by injection h)
  simp only [set_fan, setSystemState, setPartA, setPart2, sendStep, popEnv,
    outcomeValid, part1Command, fanStep1, fanStep2, h1, h2, hr, hb, hfl, hfan,
    hst, refreshSystem, requestStatus, refreshValid, statusReadonlyCopy,
    statusFullCopy, responseFan, expected_response, hval, settings_get_set]
  simp [hval, hst, hr, hb, hfl, notifyPart_fst_settings, settings_get_set,
    refreshValid, statusReadonlyCopy, statusFullCopy, responseFan]

theorem mem_envStatusResponses_head (env : List SendOutcome)
    (r : FireplaceMessage) (rs : List FireplaceMessage)
    (hid : r.response_id = .STATUS) :
    r ∈ envStatusResponses (.ok (r :: rs) :: env) := by
  simp [envStatusResponses, hid]

theorem mem_envStatusResponses_tail (o : SendOutcome) (env : List SendOutcome)
    (r : FireplaceMessage) (h : r ∈ envStatusResponses env) :
    r ∈ envStatusResponses (o :: env) := by
  match o with
  | .connError => exact h
  | .ok [] => exact h
  | .ok (x :: xs) =>
    show r ∈ (if x.response_id = .STATUS then x :: envStatusResponses env
      else envStatusResponses env)
    split
    · exact List.mem_cons_of_mem x h
    · exact h

/-- Buffered branch of the setter body (controller.py lines 412-414). -/
theorem setPartA_not_ready (c : Ctrl) (now : ℤ) (st : DictEntries)
    (value : DictValue) (env : List SendOutcome) (v : DictValue)
    (hv : c.system_settings.get st = some v) (hne : v ≠ value)
    (hnr : c.state ≠ .READY) :
    setPartA c now st value false env =
      ⟨{ c with system_settings := c.system_settings.set st value }, [],
        env, none, false⟩ := by
  unfold setPartA
  rw [hv]
  simp [hne, hnr]

/-- Failed single-command wire step of the setter body (controller.py line
    468) for a desired-temperature change. -/
theorem setPartA_desired_fail (c : Ctrl) (now : ℤ) (d : ℤ)
    (env : List SendOutcome) (v : DictValue)
    (hv : c.system_settings.get .DESIRED_TEMP = some v)
    (hne : v ≠ .int d) (hready : c.state = .READY)
    (hout : outcomeValid (popEnv env).1 .NEW_SET_TEMP = false) :
    setPartA c now .DESIRED_TEMP (.int d) false env =
      ⟨{ c with system_settings :=
          c.system_settings.set .DESIRED_TEMP (.int d) },
        [.wire .NEW_SET_TEMP], (popEnv env).2, none, false⟩ := by
  unfold setPartA
  rw [hv]
  simp [hne, hready, part1Command, sendStep, hout]

/-- Acknowledged single-command wire step of the setter body (controller.py
    lines 451-466) for a desired-temperature change. -/
theorem setPartA_desired_ok (c : Ctrl) (now : ℤ) (d : ℤ)
    (env : List SendOutcome) (v : DictValue)
    (hv : c.system_settings.get .DESIRED_TEMP = some v)
    (hne : v ≠ .int d) (hready : c.state = .READY)
    (hout : outcomeValid (popEnv env).1 .NEW_SET_TEMP = true) :
    setPartA c now .DESIRED_TEMP (.int d) false env =
      ⟨{ c with system_settings :=
          c.system_settings.set .DESIRED_TEMP (.int d), last_response := now },
        [.wire .NEW_SET_TEMP], (popEnv env).2, none, true⟩ := by
  unfold setPartA
  rw [hv]
  simp [hne, hready, part1Command, sendStep, hout, setPart2]

/-- A refresh of a READY controller raises nothing, and its effect on the
    cached desired temperature is exactly the copy at controller.py line
    307: the value of the STATUS reply when one arrives, otherwise
    unchanged. -/
theorem refresh_ready_desired (c : Ctrl) (now : ℤ) (env : List SendOutcome)
    (notify : Bool) (hready : c.state = .READY) :
    (refreshSystem c now env notify).err = none
    ∧ (refreshSystem c now env notify).ctrl.system_settings.get .DESIRED_TEMP
        = (match (popEnv env).1 with
          | .ok (r :: _) =>
            if r.response_id = .STATUS then some (.int r.desired_temp)
            else c.system_settings.get .DESIRED_TEMP
          | .ok [] => c.system_settings.get .DESIRED_TEMP
          | .connError => c.system_settings.get .DESIRED_TEMP) := by
  have hnb : ¬(c.state = .BUSY ∧ now < c.busy_end_time) := by
    rw [hready]
    simp
  match henv : (popEnv env).1 with
  | .ok (r :: rs) =>
    by_cases hid : r.response_id = ResponseID.STATUS
    · refine ⟨?_, ?_⟩ <;>
        simp [refreshSystem, hnb, requestStatus, henv, hid, expected_response,
          hready, refreshValid, statusReadonlyCopy, statusFullCopy, notifyPart_fst_settings, settings_get_set]
    · refine ⟨?_, ?_⟩ <;>
        simp [refreshSystem, hnb, requestStatus, henv, hid, expected_response,
          hready, requestStatusFail, refreshFail] <;>
        split <;> simp
  | .ok [] =>
    refine ⟨?_, ?_⟩ <;>
      simp [refreshSystem, hnb, requestStatus, henv, hready,
        requestStatusFail, refreshFail] <;>
      split <;> simp
  | .connError =>
    refine ⟨?_, ?_⟩ <;>
      simp [refreshSystem, hnb, requestStatus, henv, hready,
        requestStatusFail, refreshFail] <;>
      split <;> simp

/-- Early-return composition of _set_system_state: when the body stopped
    before line 507 without raising, the call returns its partial result
    (no trailing refresh, no BUSY transition). -/
theorem setSystemState_not_reached (c : Ctrl) (now : ℤ) (st : DictEntries)
    (value : DictValue) (env : List SendOutcome) (c2 : Ctrl)
    (evs : List Event) (env2 : List SendOutcome)
    (hA : setPartA c now st value false env = ⟨c2, evs, env2, none, false⟩) :
    setSystemState c now st value false env = ⟨c2, evs, env2, none⟩ := by
  simp [setSystemState, hA]

/-- Completed-body composition of _set_system_state for a setting other
    than FIRE_IS_ON: the trailing refresh runs and its result is returned
    unchanged when it raises nothing. -/
theorem setSystemState_reached (c : Ctrl) (now : ℤ) (st : DictEntries)
    (value : DictValue) (env : List SendOutcome) (c2 : Ctrl)
    (evs : List Event) (env2 : List SendOutcome)
    (hA : setPartA c now st value false env = ⟨c2, evs, env2, none, true⟩)
    (hst : st ≠ .FIRE_IS_ON)
    (herr : (refreshSystem c2 now env2 true).err = none) :
    setSystemState c now st value false env =
      ⟨(refreshSystem c2 now env2 true).ctrl,
        evs ++ (refreshSystem c2 now env2 true).events,
        (refreshSystem c2 now env2 true).env, none⟩ := by
  simp [setSystemState, hA, herr, hst]

/-- The in-range path of a desired-temperature change: no exception, and
    the cached desired temperature ends either at the written value or at
    the value reported by a STATUS reply of the oracle (the immediate
    refresh at controller.py line 509 copies it back, line 307). -/
theorem set_desired_state_inrange (c : Ctrl) (now : ℤ) (d : ℤ)
    (env : List SendOutcome)
    (hk : (c.system_settings.get .DESIRED_TEMP).isSome) :
    (setSystemState c now .DESIRED_TEMP (.int d) false env).err = none
    ∧ ((setSystemState c now .DESIRED_TEMP (.int d) false
          env).ctrl.system_settings.get .DESIRED_TEMP = some (.int d)
        ∨ ∃ r ∈ envStatusResponses env,
            (setSystemState c now .DESIRED_TEMP (.int d) false
              env).ctrl.system_settings.get .DESIRED_TEMP
              = some (.int r.desired_temp)) := by
  obtain ⟨v, hv⟩ := Option.isSome_iff_exists.mp hk
  by_cases hveq : v = DictValue.int d
  · subst hveq
    rw [setState_noop c now .DESIRED_TEMP _ env hv]
    exact ⟨rfl, Or.inl hv⟩
  · by_cases hready : c.state = ControllerState.READY
    · by_cases hout : outcomeValid (popEnv env).1 .NEW_SET_TEMP = true
      · have hA := setPartA_desired_ok c now d env v hv hveq hready hout
        have hrd := refresh_ready_desired
          { c with system_settings :=
              c.system_settings.set .DESIRED_TEMP (.int d), last_response := now }
          now (popEnv env).2 true hready
        rcases hrd with ⟨herr, hget⟩
        rw [setSystemState_reached c now .DESIRED_TEMP (.int d) env _ _ _ hA
          (by decide) herr]
        refine ⟨rfl, ?_⟩
        match henv2 : (popEnv ((popEnv env).2)).1 with
        | .ok (r :: rs) =>
          rw [henv2] at hget
          by_cases hid : r.response_id = ResponseID.STATUS
          · refine Or.inr ⟨r, ?_, ?_⟩
            · -- r is the head of the second exchange of env
              match env with
              | [] => simp [popEnv] at henv2
              | o1 :: env1 =>
                simp only [popEnv] at henv2
                match env1 with
                | [] => simp [popEnv] at henv2
                | o2 :: env2 =>
                  simp only [popEnv] at henv2
                  subst henv2
                  exact mem_envStatusResponses_tail o1 _ r
                    (mem_envStatusResponses_head env2 r rs hid)
            · rw [hget]
              simp [hid]
          · refine Or.inl ?_
            rw [hget]
            simp [hid, settings_get_set]
        | .ok [] =>
          rw [henv2] at hget
          refine Or.inl ?_
          rw [hget]
          simp [settings_get_set]
        | .connError =>
          rw [henv2] at hget
          refine Or.inl ?_
          rw [hget]
          simp [settings_get_set]
      · have hA := setPartA_desired_fail c now d env v hv hveq hready
          (by simpa using hout)
        rw [setSystemState_not_reached c now .DESIRED_TEMP (.int d) env _ _ _ hA]
        refine ⟨rfl, Or.inl ?_⟩
        simp [settings_get_set]
    · have hA := setPartA_not_ready c now .DESIRED_TEMP (.int d) env v hv hveq
        hready
      rw [setSystemState_not_reached c now .DESIRED_TEMP (.int d) env _ _ _ hA]
      refine ⟨rfl, Or.inl ?_⟩
      simp [settings_get_set]

/-! ## C7 -/

/-- C7 (amended): the input of set_desired_temp is first rounded to the
    nearest integer (half to even); a rounded value outside the
    MIN_SET_TEMP..MAX_SET_TEMP range is rejected with no change of any
    kind; an in-range value, on a controller whose live cache has a
    desired_temp entry, satisfies the bounds, raises nothing, and is
    written to the live cache, where it remains at return unless the
    immediate follow-up refresh received a STATUS reply, in which case the
    live value is the device-reported one. -/
theorem c7_set_desired_temp_rounds (c : Ctrl) (now : ℤ) (minT maxT : ℤ)
    (q : ℚ) (env : List SendOutcome) :
    ((pyRound q < minT ∨ pyRound q > maxT) →
      set_desired_temp c now minT maxT q env = ⟨c, [], env, none⟩)
    ∧ (¬(pyRound q < minT ∨ pyRound q > maxT) →
        (c.system_settings.get .DESIRED_TEMP).isSome →
        minT ≤ pyRound q ∧ pyRound q ≤ maxT
        ∧ (set_desired_temp c now minT maxT q env).err = none
        ∧ ((set_desired_temp c now minT maxT q
              env).ctrl.system_settings.get .DESIRED_TEMP
              = some (.int (pyRound q))
            ∨ ∃ r ∈ envStatusResponses env,
                (set_desired_temp c now minT maxT q
                  env).ctrl.system_settings.get .DESIRED_TEMP
                  = some (.int r.desired_temp))) := by
  constructor
  · intro h
    simp [set_desired_temp, h]
  · intro h hk
    have hb : minT ≤ pyRound q ∧ pyRound q ≤ maxT := by omega
    have heq : set_desired_temp c now minT maxT q env
        = setSystemState c now .DESIRED_TEMP (.int (pyRound q)) false env := by
      simp [set_desired_temp, h]
    have hmain := set_desired_state_inrange c now (pyRound q) env hk
    rw [heq]
    exact ⟨hb.1, hb.2, hmain.1, hmain.2⟩

/-- Counterexample to C7 as frozen: the in-range call set_desired_temp(25)
    on a READY controller cached at 22, whose NEW_SET_TEMP is acknowledged
    and whose follow-up refresh receives a STATUS still reporting 22,
    returns with the live desired_temp at 22, not at the rounded input
    25. -/
theorem c7_overwritten_by_refresh_counterexample :
    pyRound (mkRat 25 1) = 25
    ∧ ¬(pyRound (mkRat 25 1) < 4 ∨ pyRound (mkRat 25 1) > 30)
    ∧ (set_desired_temp sampleReady 60 4 30 (mkRat 25 1)
        [.ok [ackMsg .NEW_SET_TEMP_ACK],
          .ok [statusMsg]]).ctrl.system_settings.get .DESIRED_TEMP
        = some (.int 22)
    ∧ (set_desired_temp sampleReady 60 4 30 (mkRat 25 1)
        [.ok [ackMsg .NEW_SET_TEMP_ACK],
          .ok [statusMsg]]).ctrl.system_settings.get .DESIRED_TEMP
        ≠ some (.int (pyRound (mkRat 25 1))) := by
  refine ⟨by decide, by decide, by decide, by decide⟩

/-- Witness for C7: a rejected out-of-range call (3 with minimum 4) and an
    accepted in-range call (24) whose wire exchange fails, leaving the
    written value in place. -/
theorem c7_set_desired_temp_rounds_witness :
    (set_desired_temp sampleReady 60 4 30 (mkRat 3 1) []
        = ⟨sampleReady, [], [], none⟩)
    ∧ ((4:ℤ) ≤ pyRound (mkRat 24 1) ∧ pyRound (mkRat 24 1) ≤ 30
        ∧ (set_desired_temp sampleReady 60 4 30 (mkRat 24 1)
            [.connError]).err = none
        ∧ ((set_desired_temp sampleReady 60 4 30 (mkRat 24 1)
              [.connError]).ctrl.system_settings.get .DESIRED_TEMP
              = some (.int (pyRound (mkRat 24 1)))
            ∨ ∃ r ∈ envStatusResponses [SendOutcome.connError],
                (set_desired_temp sampleReady 60 4 30 (mkRat 24 1)
                  [.connError]).ctrl.system_settings.get .DESIRED_TEMP
                  = some (.int r.desired_temp))) :=
  ⟨(c7_set_desired_temp_rounds sampleReady 60 4 30 (mkRat 3 1) []).1
      (by decide),
    (c7_set_desired_temp_rounds sampleReady 60 4 30 (mkRat 24 1)
      [.connError]).2 (by decide) (by decide)⟩

/-! ## C5 -/

theorem fanStep1_eq (f : Fan) : fanStep1 (.fan f) = some (fanPair1 f) := by
  cases f <;> rfl

theorem fanStep2_eq (f : Fan) : fanStep2 (.fan f) = fanPair2 f := by
  cases f <;> rfl

/-- PART 2 of a fan change always sends the PART 2 command of the pair;
    a valid acknowledgement records last_response and reaches line 507. -/
theorem setPart2_fan (c : Ctrl) (now : ℤ) (f : Fan) (evs : List Event)
    (env : List SendOutcome) :
    setPart2 c now .FAN_MODE (.fan f) evs env =
      if outcomeValid (popEnv env).1 (fanPair2 f) = true then
        ⟨{ c with last_response := now }, evs ++ [.wire (fanPair2 f)],
          (popEnv env).2, none, true⟩
      else
        ⟨c, evs ++ [.wire (fanPair2 f)], (popEnv env).2, none, false⟩ := by
  unfold setPart2
  rw [fanStep2_eq]
  by_cases hout : outcomeValid (popEnv env).1 (fanPair2 f) = true <;>
    simp [sendStep, hout]

/-- A fan change that reaches the wire and gets no valid reply to PART 1
    stops at controller.py line 468. -/
theorem setPartA_fan_fail1 (c : Ctrl) (now : ℤ) (f : Fan) (fv : DictValue)
    (env : List SendOutcome)
    (hfan : c.system_settings.get .FAN_MODE = some fv) (hne : fv ≠ .fan f)
    (hready : c.state = .READY)
    (hout : outcomeValid (popEnv env).1 (fanPair1 f) = false) :
    setPartA c now .FAN_MODE (.fan f) false env =
      ⟨{ c with system_settings := c.system_settings.set .FAN_MODE (.fan f) },
        [.wire (fanPair1 f)], (popEnv env).2, none, false⟩ := by
  unfold setPartA
  rw [hfan]
  simp [hne, hready, part1Command, fanStep1_eq, sendStep, hout]

/-- A fan change that reaches the wire and gets a valid reply to PART 1
    continues unconditionally into PART 2. -/
theorem setPartA_fan_ok1 (c : Ctrl) (now : ℤ) (f : Fan) (fv : DictValue)
    (env : List SendOutcome)
    (hfan : c.system_settings.get .FAN_MODE = some fv) (hne : fv ≠ .fan f)
    (hready : c.state = .READY)
    (hout : outcomeValid (popEnv env).1 (fanPair1 f) = true) :
    setPartA c now .FAN_MODE (.fan f) false env =
      setPart2
        { c with system_settings := c.system_settings.set .FAN_MODE (.fan f), last_response := now }
        now .FAN_MODE (.fan f) [.wire (fanPair1 f)] (popEnv env).2 := by
  unfold setPartA
  rw [hfan]
  simp [hne, hready, part1Command, fanStep1_eq, sendStep, hout]

theorem notifyPart_events (c : Ctrl) (now : ℤ) (b : Bool) :
    (notifyPart c now b).2 = [] ∨ (notifyPart c now b).2 = [.controller_update] := by
  unfold notifyPart
  split
  · split
    · right
      rfl
    · left
      rfl
  · left
    rfl

/-- The event list of a refresh of a READY controller: the STATUS_PLEASE
    poll, followed by at most one of controller_update (change notify) or
    controller_disconnected (retry timeout expired on a failed poll). With
    the prior state READY, the reconciliation branch of controller.py
    lines 316-340 is not entered. -/
theorem refresh_ready_events_cases (c : Ctrl) (now : ℤ) (env : List SendOutcome)
    (notify : Bool) (hready : c.state = .READY) :
    (refreshSystem c now env notify).events = [.wire .STATUS_PLEASE]
    ∨ (refreshSystem c now env notify).events
        = [.wire .STATUS_PLEASE, .controller_update]
    ∨ (refreshSystem c now env notify).events
        = [.wire .STATUS_PLEASE, .controller_disconnected] := by
  have hnb : ¬(c.state = .BUSY ∧ now < c.busy_end_time) := by
    rw [hready]
    simp
  match henv : (popEnv env).1 with
  | .ok (r :: rs) =>
    by_cases hid : r.response_id = ResponseID.STATUS
    · simp [refreshSystem, hnb, requestStatus, henv, hid, expected_response,
        hready, refreshValid, statusReadonlyCopy, statusFullCopy, notifyPart]
      split <;>
        first
          | simp
          | (split <;> simp)
    · simp [refreshSystem, hnb, requestStatus, henv, hid, expected_response,
        hready, requestStatusFail, refreshFail]
      split <;> simp [hready]
  | .ok [] =>
    simp [refreshSystem, hnb, requestStatus, henv, hready, requestStatusFail,
      refreshFail]
    split <;> simp [hready]
  | .connError =>
    simp [refreshSystem, hnb, requestStatus, henv, hready, requestStatusFail,
      refreshFail]
    split <;> simp [hready]

/-- Both fan steps acknowledged: the body reaches line 507 having sent
    exactly the pair, in order. -/
theorem setPartA_fan_ok_ok (c : Ctrl) (now : ℤ) (f : Fan) (fv : DictValue)
    (env : List SendOutcome)
    (hfan : c.system_settings.get .FAN_MODE = some fv) (hne : fv ≠ .fan f)
    (hready : c.state = .READY)
    (hout : outcomeValid (popEnv env).1 (fanPair1 f) = true)
    (hout2 : outcomeValid (popEnv ((popEnv env).2)).1 (fanPair2 f) = true) :
    setPartA c now .FAN_MODE (.fan f) false env =
      ⟨{ c with system_settings := c.system_settings.set .FAN_MODE (.fan f), last_response := now },
        [.wire (fanPair1 f), .wire (fanPair2 f)], (popEnv ((popEnv env).2)).2,
        none, true⟩ := by
  rw [setPartA_fan_ok1 c now f fv env hfan hne hready hout, setPart2_fan,
    if_pos hout2]
  rfl

/-- Step 1 acknowledged but step 2 not: the body still sent the pair in
    order, then returned at line 505. -/
theorem setPartA_fan_ok_fail (c : Ctrl) (now : ℤ) (f : Fan) (fv : DictValue)
    (env : List SendOutcome)
    (hfan : c.system_settings.get .FAN_MODE = some fv) (hne : fv ≠ .fan f)
    (hready : c.state = .READY)
    (hout : outcomeValid (popEnv env).1 (fanPair1 f) = true)
    (hout2 : outcomeValid (popEnv ((popEnv env).2)).1 (fanPair2 f) = false) :
    setPartA c now .FAN_MODE (.fan f) false env =
      ⟨{ c with system_settings := c.system_settings.set .FAN_MODE (.fan f), last_response := now },
        [.wire (fanPair1 f), .wire (fanPair2 f)], (popEnv ((popEnv env).2)).2,
        none, false⟩ := by
  rw [setPartA_fan_ok1 c now f fv env hfan hne hready hout, setPart2_fan,
    if_neg (by simp [hout2])]
  rfl

/-- Every wire frame a refresh of a READY controller emits is the
    STATUS_PLEASE poll. -/
theorem refresh_ready_events (c : Ctrl) (now : ℤ) (env : List SendOutcome)
    (notify : Bool) (hready : c.state = .READY) :
    ∀ e ∈ (refreshSystem c now env notify).events, ∀ cmd,
      e = Event.wire cmd → cmd = .STATUS_PLEASE := by
  intro e he cmd hcmd
  rcases refresh_ready_events_cases c now env notify hready with h | h | h <;>
    rw [h] at he <;> simp at he <;>
    first
      | (rw [he] at hcmd
         injection hcmd with hx
         exact hx.symm)
      | (rcases he with he | he <;> rw [he] at hcmd
         · injection hcmd with hx
           exact hx.symm
         · simp at hcmd)

/-- C5: a fan-mode setter call that reaches the wire sends exactly the two
    commands of the target pair in order (AUTO: FAN_BOOST_OFF then
    FLAME_EFFECT_OFF; FAN_BOOST: FLAME_EFFECT_OFF then FAN_BOOST_ON;
    FLAME_EFFECT: FAN_BOOST_OFF then FLAME_EFFECT_ON). When step 1 is
    acknowledged, step 2 is issued unconditionally, and any further wire
    frame of the call is only the STATUS_PLEASE of the follow-up refresh;
    when step 1 gets no valid response, step 2 is not sent and the setter
    returns immediately with the buffered value as its only effect. -/
theorem c5_fan_mode_two_step (c : Ctrl) (now : ℤ) (f : Fan) (fv : DictValue)
    (env : List SendOutcome) (hst : c.state = .READY)
    (hfan : c.system_settings.get .FAN_MODE = some fv) (hne : fv ≠ .fan f) :
    (fanPair1 .AUTO = .FAN_BOOST_OFF ∧ fanPair2 .AUTO = .FLAME_EFFECT_OFF
      ∧ fanPair1 .FAN_BOOST = .FLAME_EFFECT_OFF
      ∧ fanPair2 .FAN_BOOST = .FAN_BOOST_ON
      ∧ fanPair1 .FLAME_EFFECT = .FAN_BOOST_OFF
      ∧ fanPair2 .FLAME_EFFECT = .FLAME_EFFECT_ON)
    ∧ (fanStep1 (.fan f) = some (fanPair1 f)
        ∧ fanStep2 (.fan f) = fanPair2 f)
    ∧ (outcomeValid (popEnv env).1 (fanPair1 f) = false →
        set_fan c now f env
          = ⟨{ c with system_settings := c.system_settings.set .FAN_MODE (.fan f) },
              [.wire (fanPair1 f)], (popEnv env).2, none⟩)
    ∧ (outcomeValid (popEnv env).1 (fanPair1 f) = true →
        ∃ tail, (set_fan c now f env).events
            = .wire (fanPair1 f) :: .wire (fanPair2 f) :: tail
          ∧ ∀ e ∈ tail, ∀ cmd, e = Event.wire cmd →
              cmd = CommandID.STATUS_PLEASE) := by
  refine ⟨by decide, ⟨fanStep1_eq f, fanStep2_eq f⟩, ?_, ?_⟩
  · intro hout
    have hA := setPartA_fan_fail1 c now f fv env hfan hne hst hout
    simp only [set_fan]
    exact setSystemState_not_reached c now .FAN_MODE (.fan f) env _ _ _ hA
  · intro hout
    simp only [set_fan]
    by_cases hout2 :
        outcomeValid (popEnv ((popEnv env).2)).1 (fanPair2 f) = true
    · have hA := setPartA_fan_ok_ok c now f fv env hfan hne hst hout hout2
      have hready2 : ({ c with
          system_settings := c.system_settings.set .FAN_MODE (.fan f), last_response := now } : Ctrl).state
            = ControllerState.READY := hst
      have herr := (refresh_ready_desired
        { c with system_settings := c.system_settings.set .FAN_MODE (.fan f), last_response := now }
        now (popEnv ((popEnv env).2)).2 true hready2).1
      rw [setSystemState_reached c now .FAN_MODE (.fan f) env _ _ _ hA
        (by decide) herr]
      refine ⟨(refreshSystem
        { c with system_settings := c.system_settings.set .FAN_MODE (.fan f), last_response := now }
        now (popEnv ((popEnv env).2)).2 true).events, by simp, ?_⟩
      exact refresh_ready_events _ now _ true hready2
    · have hA := setPartA_fan_ok_fail c now f fv env hfan hne hst hout
        (by simpa using hout2)
      rw [setSystemState_not_reached c now .FAN_MODE (.fan f) env _ _ _ hA]
      exact ⟨[], by simp, by simp⟩

/-- Witness for C5: a FLAME_EFFECT request from an AUTO start whose first
    command gets no reply (the connection errors out). -/
theorem c5_fan_mode_two_step_witness :
    set_fan sampleReady 60 .FLAME_EFFECT [.connError]
      = ⟨{ sampleReady with system_settings :=
            sampleReady.system_settings.set .FAN_MODE (.fan .FLAME_EFFECT) },
          [.wire .FAN_BOOST_OFF], [], none⟩ :=
  (c5_fan_mode_two_step sampleReady 60 .FLAME_EFFECT (.fan .AUTO) [.connError]
    (by decide) (by decide) (by decide)).2.2.1 (by decide)

/-! ## C9 -/

theorem setPart2_err (c : Ctrl) (now : ℤ) (st : DictEntries)
    (value : DictValue) (evs : List Event) (env : List SendOutcome) :
    (setPart2 c now st value evs env).err = none := by
  unfold setPart2
  split
  · dsimp only
    split <;> rfl
  · rfl

/-- The raise at controller.py line 449 is taken exactly when the setting
    falls through the dispatch chain of lines 418-446. -/
theorem setPartA_not_unknown (c : Ctrl) (now : ℤ) (st : DictEntries)
    (value : DictValue) (sync : Bool) (env : List SendOutcome)
    (h : part1Command st value ≠ none) :
    (setPartA c now st value sync env).err ≠ some .unknownSetting := by
  unfold setPartA
  match hget : c.system_settings.get st with
  | none => simp
  | some cur =>
    simp only
    split
    · simp
    · split
      · simp
      · rcases hcmd : part1Command st value with _ | ⟨_ | cmd⟩
        · exact absurd hcmd h
        · simp only [hcmd]
          rw [setPart2_err]
          simp
        · simp only [hcmd]
          split
          · rw [setPart2_err]
            simp
          · simp

/-- The three settings the setters and the reconciliation dispatch on never
    fall through to the raise. -/
theorem part1Command_known (st : DictEntries) (value : DictValue)
    (h : st = .FIRE_IS_ON ∨ st = .DESIRED_TEMP ∨ st = .FAN_MODE) :
    part1Command st value ≠ none := by
  rcases h with h | h | h <;> subst h <;> simp [part1Command]

theorem setSync_err (c : Ctrl) (now : ℤ) (st : DictEntries)
    (value : DictValue) (env : List SendOutcome) :
    (setSystemStateSync c now st value env).err
        = (setPartA c now st value true env).err
    ∨ (setSystemStateSync c now st value env).err = none := by
  unfold setSystemStateSync
  dsimp only
  split
  · left
    rfl
  · split
    · right
      rfl
    · split
      · right
        rfl
      · right
        rfl

theorem setSync_not_unknown (c : Ctrl) (now : ℤ) (st : DictEntries)
    (value : DictValue) (env : List SendOutcome)
    (h : part1Command st value ≠ none) :
    (setSystemStateSync c now st value env).err ≠ some .unknownSetting := by
  rcases setSync_err c now st value env with he | he <;> rw [he]
  · exact setPartA_not_unknown c now st value true env h
  · simp

theorem reconcileField_not_unknown (c : Ctrl) (now : ℤ) (st : DictEntries)
    (respVal : DictValue) (env : List SendOutcome)
    (h : st = .FIRE_IS_ON ∨ st = .DESIRED_TEMP ∨ st = .FAN_MODE) :
    (reconcileField c now st respVal env).err ≠ some .unknownSetting := by
  unfold reconcileField
  match hget : c.system_settings.get st with
  | none => simp
  | some cur =>
    simp only
    split
    · exact setSync_not_unknown c now st cur env (part1Command_known st cur h)
    · simp

theorem refreshValid_not_unknown (c0 : Ctrl) (now : ℤ)
    (prior : ControllerState) (r : FireplaceMessage) (env : List SendOutcome)
    (notify : Bool) :
    (refreshValid c0 now prior r env notify).err ≠ some .unknownSetting := by
  unfold refreshValid
  dsimp only
  split
  · simp
  · split
    · next er heq =>
      intro hk
      have hek : er = PyErr.unknownSetting := by simpa using hk
      subst hek
      exact reconcileField_not_unknown _ now .DESIRED_TEMP
        (.int r.desired_temp) env (Or.inr (Or.inl rfl)) heq
    · split
      · next er heq =>
        intro hk
        have hek : er = PyErr.unknownSetting := by simpa using hk
        subst hek
        exact reconcileField_not_unknown _ now .FAN_MODE
          (.fan (responseFan r)) _ (Or.inr (Or.inr rfl)) heq
      · split
        · next er heq =>
          intro hk
          have hek : er = PyErr.unknownSetting := by simpa using hk
          subst hek
          exact reconcileField_not_unknown _ now .FIRE_IS_ON
            (.bool r.fire_is_on) _ (Or.inl rfl) heq
        · simp

theorem refreshFail_err (s : StatusEff) (prior : ControllerState) (now : ℤ) :
    (refreshFail s prior now).err = none := by
  unfold refreshFail
  split <;> rfl

theorem refresh_not_unknown (c : Ctrl) (now : ℤ) (env : List SendOutcome)
    (notify : Bool) :
    (refreshSystem c now env notify).err ≠ some .unknownSetting := by
  unfold refreshSystem
  dsimp only
  split
  · simp
  · split
    · split
      · intro hk
        exact refreshValid_not_unknown _ now _ _ _ notify hk
      · rw [refreshFail_err]
        simp
    · rw [refreshFail_err]
      simp

theorem setSystemState_err_cases (c : Ctrl) (now : ℤ) (st : DictEntries)
    (value : DictValue) (sync : Bool) (env : List SendOutcome) :
    (setSystemState c now st value sync env).err = none
    ∨ (setSystemState c now st value sync env).err
        = (setPartA c now st value false env).err
    ∨ (setSystemState c now st value sync env).err
        = (setSystemStateSync c now st value env).err
    ∨ ∃ c2 env2, (setSystemState c now st value sync env).err
        = (refreshSystem c2 now env2 true).err := by
  unfold setSystemState
  dsimp only
  split
  · right
    right
    left
    rfl
  · split
    · right
      left
      rfl
    · split
      · left
        rfl
      · split
        · right
          right
          right
          exact ⟨_, _, rfl⟩
        · split
          · left
            rfl
          · left
            rfl

theorem setSystemState_not_unknown (c : Ctrl) (now : ℤ) (st : DictEntries)
    (value : DictValue) (sync : Bool) (env : List SendOutcome)
    (h : part1Command st value ≠ none) :
    (setSystemState c now st value sync env).err ≠ some .unknownSetting := by
  rcases setSystemState_err_cases c now st value sync env with
    he | he | he | ⟨c2, env2, he⟩ <;> rw [he]
  · simp
  · exact setPartA_not_unknown c now st value false env h
  · exact setSync_not_unknown c now st value env h
  · exact refresh_not_unknown c2 now env2 true

/-- C9: every _set_system_state invocation reachable from the public
    setters (set_on, set_fan, set_desired_temp) or from the refresh
    reconciliation passes one of FIRE_IS_ON, DESIRED_TEMP, FAN_MODE, and
    for those settings the unknown-setting raise at controller.py line 449
    is unreachable: no such call ever produces that exception. -/
theorem c9_unknown_setting_unreachable :
    (∀ (c : Ctrl) (now : ℤ) (v : Bool) (env : List SendOutcome),
        (set_on c now v env).err ≠ some .unknownSetting)
    ∧ (∀ (c : Ctrl) (now : ℤ) (f : Fan) (env : List SendOutcome),
        (set_fan c now f env).err ≠ some .unknownSetting)
    ∧ (∀ (c : Ctrl) (now : ℤ) (minT maxT : ℤ) (q : ℚ)
        (env : List SendOutcome),
        (set_desired_temp c now minT maxT q env).err ≠ some .unknownSetting)
    ∧ (∀ (c : Ctrl) (now : ℤ) (st : DictEntries) (value : DictValue)
        (sync : Bool) (env : List SendOutcome),
        (st = .FIRE_IS_ON ∨ st = .DESIRED_TEMP ∨ st = .FAN_MODE) →
        (setSystemState c now st value sync env).err ≠ some .unknownSetting)
    ∧ (∀ (c : Ctrl) (now : ℤ) (env : List SendOutcome) (notify : Bool),
        (refreshSystem c now env notify).err ≠ some .unknownSetting) := by
  refine ⟨?_, ?_, ?_, ?_, ?_⟩
  · intro c now v env
    exact setSystemState_not_unknown c now .FIRE_IS_ON (.bool v) false env
      (part1Command_known _ _ (Or.inl rfl))
  · intro c now f env
    exact setSystemState_not_unknown c now .FAN_MODE (.fan f) false env
      (part1Command_known _ _ (Or.inr (Or.inr rfl)))
  · intro c now minT maxT q env
    unfold set_desired_temp
    dsimp only
    split
    · simp
    · exact setSystemState_not_unknown c now .DESIRED_TEMP _ false env
        (part1Command_known _ _ (Or.inr (Or.inl rfl)))
  · intro c now st value sync env h
    exact setSystemState_not_unknown c now st value sync env
      (part1Command_known _ _ h)
  · intro c now env notify
    exact refresh_not_unknown c now env notify

/-- Witness for C9: the general statement applied at a concrete controller
    and one concrete setting of the dispatched three. -/
theorem c9_unknown_setting_unreachable_witness :
    (setSystemState sampleReady 60 .FAN_MODE (.fan .FAN_BOOST) true
      [.connError]).err ≠ some .unknownSetting :=
  c9_unknown_setting_unreachable.2.2.2.1 sampleReady 60 .FAN_MODE
    (.fan .FAN_BOOST) true [.connError] (Or.inr (Or.inr rfl))

/-! ## C1 -/

theorem requestStatus_invalid (c : Ctrl) (now : ℤ) (env : List SendOutcome)
    (h : outcomeValid (popEnv env).1 .STATUS_PLEASE = false) :
    requestStatus c now env = requestStatusFail c (popEnv env).2 := by
  unfold requestStatus
  dsimp only
  match henv : (popEnv env).1 with
  | .ok (r :: rs) =>
    rw [henv] at h
    simp only [outcomeValid, decide_eq_false_iff_not] at h
    simp [h]
  | .ok [] => rfl
  | .connError => rfl

/-- A refresh outside the busy window whose status exchange yields no valid
    reply: NON_RESPONSIVE while within RETRY_TIMEOUT of the last valid
    reply, DISCONNECTED after, with the disconnect callback exactly on the
    transition into DISCONNECTED (controller.py lines 354-361). -/
theorem refresh_invalid (c : Ctrl) (now : ℤ) (env : List SendOutcome)
    (notify : Bool)
    (hnb : ¬(c.state = .BUSY ∧ now < c.busy_end_time))
    (hout : outcomeValid (popEnv env).1 .STATUS_PLEASE = false) :
    refreshSystem c now env notify =
      if now - c.last_response < RETRY_TIMEOUT then
        ⟨{ c with state := .NON_RESPONSIVE }, [.wire .STATUS_PLEASE],
          (popEnv env).2, none⟩
      else
        ⟨{ c with state := .DISCONNECTED },
          .wire .STATUS_PLEASE ::
            (if c.state ≠ .DISCONNECTED then [.controller_disconnected] else []),
          (popEnv env).2, none⟩ := by
  unfold refreshSystem
  rw [if_neg hnb, requestStatus_invalid c now env hout]
  by_cases hd : c.state = .DISCONNECTED <;>
    by_cases ht : now - c.last_response < RETRY_TIMEOUT <;>
    simp [requestStatusFail, refreshFail, hd, ht]

theorem requestStatus_valid (c : Ctrl) (now : ℤ) (r : FireplaceMessage)
    (rs : List FireplaceMessage) (rest : List SendOutcome)
    (hid : r.response_id = expected_response .STATUS_PLEASE) :
    requestStatus c now (.ok (r :: rs) :: rest) =
      ⟨{ c with last_response := now }, some r, [.wire .STATUS_PLEASE],
        rest⟩ := by
  simp [requestStatus, popEnv, hid]

/-- A refresh of a READY controller that receives a STATUS reply stays
    READY and raises nothing: the prior state is READY, so the normal
    update branch of controller.py lines 304-314 runs. -/
theorem refresh_ready_valid_state (c : Ctrl) (now : ℤ) (r : FireplaceMessage)
    (rs : List FireplaceMessage) (rest : List SendOutcome) (notify : Bool)
    (hready : c.state = .READY) (hid : r.response_id = .STATUS) :
    (refreshSystem c now (.ok (r :: rs) :: rest) notify).ctrl.state = .READY
    ∧ (refreshSystem c now (.ok (r :: rs) :: rest) notify).err = none := by
  have hnb : ¬(c.state = .BUSY ∧ now < c.busy_end_time) := by
    rw [hready]
    simp
  have hid2 : r.response_id = expected_response .STATUS_PLEASE := by
    rw [hid]
    rfl
  refine ⟨?_, ?_⟩ <;>
    rw [refreshSystem, if_neg hnb, requestStatus_valid c now r rs rest hid2] <;>
    simp [hid, hready, refreshValid, statusReadonlyCopy, statusFullCopy,
    notifyPart_fst_state]

/-- C1: the controller side of initialization. A successful initialization
    fetch (the STATUS exchange answered with a valid STATUS reply) leaves
    the controller READY, raises nothing, and starts the poll loop. An
    initialization fetch that receives no valid reply does NOT propagate
    any failure: ConnectionError is swallowed inside _request_status
    (controller.py lines 372-373), initialize returns normally, the
    controller moves itself to DISCONNECTED (time() being far beyond
    RETRY_TIMEOUT of the epoch value 0 of _last_response), emits
    controller_disconnected, and still starts the poll loop — so Discovery
    is never given a failure to decline registration on. -/
theorem c1_initialize_fetch (uid ip : String) (now : ℤ)
    (r : FireplaceMessage) (rs : List FireplaceMessage)
    (env1 : List SendOutcome) (env : List SendOutcome) :
    (r.response_id = .STATUS →
      (initializeController (newController uid ip) now
          (.ok (r :: rs) :: env1)).err = none
      ∧ (initializeController (newController uid ip) now
          (.ok (r :: rs) :: env1)).ctrl.state = .READY
      ∧ (initializeController (newController uid ip) now
          (.ok (r :: rs) :: env1)).poll_started = true)
    ∧ (outcomeValid (popEnv env).1 .STATUS_PLEASE = false →
        RETRY_TIMEOUT ≤ now →
        (initializeController (newController uid ip) now env).err = none
        ∧ (initializeController (newController uid ip) now env).ctrl.state
            = .DISCONNECTED
        ∧ countEvent .controller_disconnected
            (initializeController (newController uid ip) now env).events = 1
        ∧ (initializeController (newController uid ip) now env).poll_started
            = true) := by
  constructor
  · intro hid
    have hready : (initAttrs (newController uid ip)).state = .READY := rfl
    have hmain := refresh_ready_valid_state (initAttrs (newController uid ip))
      now r rs env1 false hready hid
    unfold initializeController
    dsimp only
    rw [hmain.2]
    exact ⟨rfl, hmain.1, rfl⟩
  · intro hout h60
    have hnb : ¬((initAttrs (newController uid ip)).state = .BUSY
        ∧ now < (initAttrs (newController uid ip)).busy_end_time) := by
      simp [initAttrs]
    have hr := refresh_invalid (initAttrs (newController uid ip)) now env
      false hnb hout
    rw [if_neg (by
      simp only [initAttrs, RETRY_TIMEOUT] at h60 ⊢
      omega)] at hr
    unfold initializeController
    dsimp only
    rw [hr]
    refine ⟨rfl, rfl, ?_, rfl⟩
    simp [countEvent, initAttrs, newController]

/-- Witness for C1 at a concrete serial, address, clock and oracle. -/
theorem c1_initialize_fetch_witness :
    ((initializeController (newController "S" "ip") 100
        (.ok [statusMsg] :: [])).err = none
      ∧ (initializeController (newController "S" "ip") 100
          (.ok [statusMsg] :: [])).ctrl.state = .READY
      ∧ (initializeController (newController "S" "ip") 100
          (.ok [statusMsg] :: [])).poll_started = true)
    ∧ ((initializeController (newController "S" "ip") 100 [.connError]).err
          = none
        ∧ (initializeController (newController "S" "ip") 100
            [.connError]).ctrl.state = .DISCONNECTED
        ∧ countEvent .controller_disconnected
            (initializeController (newController "S" "ip") 100
              [.connError]).events = 1
        ∧ (initializeController (newController "S" "ip") 100
            [.connError]).poll_started = true) :=
  ⟨(c1_initialize_fetch "S" "ip" 100 statusMsg [] [] [.connError]).1
      (by decide),
    (c1_initialize_fetch "S" "ip" 100 statusMsg [] [] [.connError]).2
      (by decide) (by decide)⟩

/-! ## C2 and C3 -/

/-- Class Controller defines no attribute named _initialize: the name the
    registration task calls at discovery.py line 296. -/
theorem underscore_init_not_an_attr :
    controllerAttrNames.contains "_initialize" = false := by decide

/-- Class Controller defines no attribute named _refresh_address: the name
    called for known serials at discovery.py line 309. -/
theorem no_underscore_refresh_address :
    controllerAttrNames.contains "_refresh_address" = false := by decide

/-- Every _discovery_received call either spawns a registration task that
    dies on AttributeError (new serial: the service state is unchanged and
    no listener is called), or raises AttributeError itself (known
    serial). -/
theorem discoveryReceived_events (d : Disco) (data : FireplaceMessage)
    (addr : String) (now : ℤ) (env : List SendOutcome) :
    discoveryReceived d data addr now env
      = ⟨d, [.task_spawned (.init_controller data.serial_number),
            .task_failed .attributeError], none⟩
    ∨ discoveryReceived d data addr now env = ⟨d, [], some .attributeError⟩ := by
  unfold discoveryReceived initControllerTask
  dsimp only
  split
  · left
    rw [underscore_init_not_an_attr]
    simp
  · right
    rw [no_underscore_refresh_address]
    simp

/-- C2: the source can never register a controller. For every discovery
    reply carrying a serial number not yet in the controllers map,
    _discovery_received creates the Controller and spawns the
    initialize_controller task, but the task immediately dies with
    AttributeError (Controller has no _initialize; controller.py names the
    method initialize), which the except-ConnectionError clause does not
    catch. The controllers map is left unchanged and controller_discovered
    is never emitted to any listener — on success or failure alike. -/
theorem c2_new_serial_is_never_registered (d : Disco) (data : FireplaceMessage)
    (addr : String) (now : ℤ) (env : List SendOutcome)
    (hnew : d.controllers.any (fun p => p.1 = data.serial_number) = false) :
    discoveryReceived d data addr now env =
      ⟨d, [.task_spawned (.init_controller data.serial_number),
          .task_failed .attributeError], none⟩ := by
  unfold discoveryReceived initControllerTask
  dsimp only
  rw [underscore_init_not_an_attr, hnew]
  simp

/-- Witness for C2: a fresh service receiving statusMsg from a new
    serial. -/
theorem c2_new_serial_is_never_registered_witness :
    discoveryReceived sampleDisco statusMsg "ip" 100 [.connError] =
      ⟨sampleDisco, [.task_spawned (.init_controller statusMsg.serial_number),
          .task_failed .attributeError], none⟩ :=
  c2_new_serial_is_never_registered sampleDisco statusMsg "ip" 100
    [.connError] (by decide)

theorem processReplies_no_wire_no_scan (d : Disco) (now : ℤ)
    (rs : List BroadcastReply) :
    (processReplies d now rs).events.filter isDWireEvent = []
    ∧ DEvent.task_spawned .scan_loop ∉ (processReplies d now rs).events := by
  induction rs generalizing d with
  | nil => simp [processReplies]
  | cons rep rest ih =>
    rcases discoveryReceived_events d rep.data rep.addr now rep.env with h | h
    · unfold processReplies
      dsimp only
      rw [h]
      dsimp only
      constructor
      · simp [isDWireEvent, (ih d).1]
      · simpa using (ih d).2
    · unfold processReplies
      dsimp only
      rw [h]
      simp

/-- C3: start_discovery is exactly one broadcast probe. Its one wire frame
    is SEARCH_FOR_FIRES and it creates no scan-loop task (the scan loop of
    discovery.py lines 225-239 is never started by anything). One
    iteration of that loop, were it running, would sleep DISCOVERY_SLEEP
    with an empty disconnected set and DISCOVERY_RESCAN otherwise; and
    close never assigns _close_task, the only exit condition the loop
    checks. -/
theorem c3_start_discovery_single_probe (d : Disco) (now : ℤ)
    (o : BroadcastOutcome) :
    (startDiscovery d now o).events.filter isDWireEvent
        = [.wire .SEARCH_FOR_FIRES]
    ∧ DEvent.task_spawned .scan_loop ∉ (startDiscovery d now o).events
    ∧ scanSleep d
        = (if d.disconnected = [] then DISCOVERY_SLEEP else DISCOVERY_RESCAN)
    ∧ closeDisco d = d := by
  refine ⟨?_, ?_, ?_, rfl⟩
  · cases o with
    | timeout => simp [startDiscovery, sendBroadcast, isDWireEvent]
    | replies rs =>
      have h := processReplies_no_wire_no_scan d now rs
      simp [startDiscovery, sendBroadcast, isDWireEvent, h.1]
  · cases o with
    | timeout => simp [startDiscovery, sendBroadcast]
    | replies rs =>
      have h := processReplies_no_wire_no_scan d now rs
      simp [startDiscovery, sendBroadcast]
      exact h.2
  · unfold scanSleep
    by_cases hd : d.disconnected = [] <;> simp [hd]

/-! ## C10 -/

theorem initializeController_ok (c0 : Ctrl) (now : ℤ) (env : List SendOutcome)
    (herr : (refreshSystem (initAttrs c0) now env false).err = none) :
    initializeController c0 now env =
      ⟨{ (refreshSystem (initAttrs c0) now env false).ctrl with initialised := true },
        (refreshSystem (initAttrs c0) now env false).events,
        (refreshSystem (initAttrs c0) now env false).env, none, true⟩ := by
  unfold initializeController
  dsimp only
  rw [herr]

/-- The live settings after a READY controller processes a STATUS reply:
    the five copies of controller.py lines 301-314 over the previous
    dict. -/
theorem refresh_ready_valid_settings (c : Ctrl) (now : ℤ)
    (r : FireplaceMessage) (rs : List FireplaceMessage)
    (rest : List SendOutcome) (notify : Bool)
    (hready : c.state = .READY) (hid : r.response_id = .STATUS) :
    (refreshSystem c now (.ok (r :: rs) :: rest) notify).ctrl.system_settings
      = ((((c.system_settings.set .HAS_NEW_TIMERS
            (.bool r.has_new_timers)).set
          .CURRENT_TEMP (.int r.current_temp)).set
          .DESIRED_TEMP (.int r.desired_temp)).set
          .FAN_MODE (.fan (responseFan r))).set
          .FIRE_IS_ON (.bool r.fire_is_on) := by
  have hnb : ¬(c.state = .BUSY ∧ now < c.busy_end_time) := by
    rw [hready]
    simp
  have hid2 : r.response_id = expected_response .STATUS_PLEASE := by
    rw [hid]
    rfl
  rw [refreshSystem, if_neg hnb, requestStatus_valid c now r rs rest hid2]
  simp [hid, hready, refreshValid, statusReadonlyCopy, statusFullCopy,
    notifyPart_fst_settings]

/-- Counterexample to C10 as frozen: a controller whose initialization
    fetch failed processes its first valid STATUS on the next poll; the
    reconciliation branch reads the absent desired_temp entry and raises
    KeyError, so after that first valid STATUS the is_on, fan and
    desired_temp accessors still fail. -/
theorem c10_first_status_after_failed_init_counterexample :
    (initializeController (newController "S" "ip") 100
        [.connError]).ctrl.desired_temp = none
    ∧ validStatusEnv [.ok [statusMsg]] = true
    ∧ (refreshSystem (initializeController (newController "S" "ip") 100
        [.connError]).ctrl 200 [.ok [statusMsg]] true).err = some .keyError
    ∧ (refreshSystem (initializeController (newController "S" "ip") 100
        [.connError]).ctrl 200 [.ok [statusMsg]] true).ctrl.desired_temp = none
    ∧ (refreshSystem (initializeController (newController "S" "ip") 100
        [.connError]).ctrl 200 [.ok [statusMsg]] true).ctrl.is_on = none
    ∧ (refreshSystem (initializeController (newController "S" "ip") 100
        [.connError]).ctrl 200 [.ok [statusMsg]] true).ctrl.fan = none := by
  refine ⟨by decide, by decide, by decide, by decide, by decide, by decide⟩

/-- C10 (amended): before any valid STATUS is processed, only the
    ip_address and device_uid entries of the live settings are defined, so
    is_on, fan, desired_temp and current_temp raise a missing-key error
    while device_ip and device_uid succeed. When the first valid STATUS is
    processed with the prior state READY — in particular by a successful
    initialization fetch — every settings entry the code ever writes is
    defined and every accessor succeeds. (When the first valid STATUS
    instead arrives after the initialization fetch failed, the
    reconciliation raises KeyError and the accessors keep failing; see the
    counterexample.) -/
theorem c10_accessor_definedness (uid ip : String) (now : ℤ)
    (r : FireplaceMessage) (rs : List FireplaceMessage)
    (env1 : List SendOutcome) :
    ((newController uid ip).device_ip = some (.str ip)
      ∧ (newController uid ip).device_uid = some (.str uid)
      ∧ (newController uid ip).is_on = none
      ∧ (newController uid ip).fan = none
      ∧ (newController uid ip).desired_temp = none
      ∧ (newController uid ip).current_temp = none
      ∧ ∀ e, ((newController uid ip).system_settings.get e).isSome
          ↔ (e = .IP_ADDRESS ∨ e = .DEVICE_UID))
    ∧ (r.response_id = .STATUS →
        ∀ e, (((initializeController (newController uid ip) now
            (.ok (r :: rs) :: env1)).ctrl.system_settings.get e).isSome
          ↔ e ≠ .CONTROLLER_STATE)) := by
  constructor
  · refine ⟨rfl, ?_, rfl, rfl, rfl, rfl, ?_⟩
    · simp [newController, Ctrl.device_uid, settings_get_set]
    · intro e
      cases e <;>
        simp [newController, settings_get_set, emptySettings, Settings.get,
          Settings.set]
  · intro hid
    have hready : (initAttrs (newController uid ip)).state = .READY := rfl
    have hmain := refresh_ready_valid_state (initAttrs (newController uid ip))
      now r rs env1 false hready hid
    rw [initializeController_ok _ _ _ hmain.2]
    intro e
    have hset := refresh_ready_valid_settings (initAttrs (newController uid ip))
      now r rs env1 false hready hid
    show (((refreshSystem (initAttrs (newController uid ip)) now
        (.ok (r :: rs) :: env1) false).ctrl.system_settings.get e).isSome
      ↔ e ≠ .CONTROLLER_STATE)
    rw [hset]
    cases e <;>
      simp [settings_get_set, initAttrs, newController, emptySettings,
        Settings.get, Settings.set]

/-- Witness for C10 at a concrete serial and STATUS reply. -/
theorem c10_accessor_definedness_witness :
    ((newController "S" "ip").device_ip = some (.str "ip")
      ∧ (newController "S" "ip").device_uid = some (.str "S")
      ∧ (newController "S" "ip").is_on = none
      ∧ (newController "S" "ip").fan = none
      ∧ (newController "S" "ip").desired_temp = none
      ∧ (newController "S" "ip").current_temp = none
      ∧ ∀ e, ((newController "S" "ip").system_settings.get e).isSome
          ↔ (e = .IP_ADDRESS ∨ e = .DEVICE_UID))
    ∧ ∀ e, (((initializeController (newController "S" "ip") 100
        (.ok [statusMsg] :: [])).ctrl.system_settings.get e).isSome
      ↔ e ≠ .CONTROLLER_STATE) :=
  ⟨(c10_accessor_definedness "S" "ip" 100 statusMsg [] []).1,
    (c10_accessor_definedness "S" "ip" 100 statusMsg [] []).2 (by decide)⟩

/-! ## C6 -/

theorem countEvent_append (ev : Event) (l1 l2 : List Event) :
    countEvent ev (l1 ++ l2) = countEvent ev l1 + countEvent ev l2 := by
  simp [countEvent, List.filter_append]

theorem connFilter_append (l1 l2 : List Event) :
    connFilter (l1 ++ l2) = connFilter l1 ++ connFilter l2 := by
  simp [connFilter, List.filter_append]

theorem wireOnly_no_conn (l : List Event) (h : wireOnly l = true) :
    connFilter l = []
    ∧ countEvent .controller_disconnected l = 0
    ∧ countEvent .controller_reconnected l = 0 := by
  induction l with
  | nil => simp [connFilter, countEvent]
  | cons a l ih =>
    simp only [wireOnly, List.all_cons, Bool.and_eq_true] at h
    have ha : isWireEvent a = true := h.1
    have hl := ih (by simp [wireOnly, h.2])
    match a with
    | .wire cmd =>
      refine ⟨?_, ?_, ?_⟩
      · simpa [connFilter, isConnEvent] using hl.1
      · simpa [countEvent] using hl.2.1
      · simpa [countEvent] using hl.2.2
    | .controller_disconnected => simp [isWireEvent] at ha
    | .controller_reconnected => simp [isWireEvent] at ha
    | .controller_update => simp [isWireEvent] at ha

theorem setPart2_wireOnly (c : Ctrl) (now : ℤ) (st : DictEntries)
    (value : DictValue) (evs : List Event) (env : List SendOutcome)
    (h : wireOnly evs = true) :
    wireOnly (setPart2 c now st value evs env).events = true := by
  unfold setPart2
  dsimp only
  split
  · split <;> simp [wireOnly, isWireEvent] <;>
      simpa [wireOnly] using h
  · exact h

theorem setPartA_wireOnly (c : Ctrl) (now : ℤ) (st : DictEntries)
    (value : DictValue) (sync : Bool) (env : List SendOutcome) :
    wireOnly (setPartA c now st value sync env).events = true := by
  unfold setPartA
  match hget : c.system_settings.get st with
  | none => rfl
  | some cur =>
    dsimp only
    split
    · rfl
    · split
      · rfl
      · match hcmd : part1Command st value with
        | none => rfl
        | some (some cmd) =>
          dsimp only
          split
          · exact setPart2_wireOnly _ now st value _ _ (by rfl)
          · rfl
        | some none =>
          exact setPart2_wireOnly _ now st value _ _ (by rfl)

theorem setPart2_state (c : Ctrl) (now : ℤ) (st : DictEntries)
    (value : DictValue) (evs : List Event) (env : List SendOutcome) :
    (setPart2 c now st value evs env).ctrl.state = c.state := by
  unfold setPart2
  dsimp only
  split
  · split <;> simp [sendStep] <;> split <;> rfl
  · rfl

theorem setPartA_state (c : Ctrl) (now : ℤ) (st : DictEntries)
    (value : DictValue) (sync : Bool) (env : List SendOutcome) :
    (setPartA c now st value sync env).ctrl.state = c.state := by
  unfold setPartA
  match hget : c.system_settings.get st with
  | none => rfl
  | some cur =>
    dsimp only
    split
    · rfl
    · split
      · rfl
      · match hcmd : part1Command st value with
        | none => rfl
        | some (some cmd) =>
          dsimp only
          split
          · rw [setPart2_state]
            simp [sendStep]
            split <;> rfl
          · simp [sendStep]
            split <;> rfl
        | some none =>
          rw [setPart2_state]

theorem setSync_wireOnly (c : Ctrl) (now : ℤ) (st : DictEntries)
    (value : DictValue) (env : List SendOutcome) :
    wireOnly (setSystemStateSync c now st value env).events = true := by
  unfold setSystemStateSync
  dsimp only
  split
  · exact setPartA_wireOnly c now st value true env
  · split
    · exact setPartA_wireOnly c now st value true env
    · split <;> exact setPartA_wireOnly c now st value true env

theorem setSync_state (c : Ctrl) (now : ℤ) (st : DictEntries)
    (value : DictValue) (env : List SendOutcome) :
    (setSystemStateSync c now st value env).ctrl.state = c.state
    ∨ (setSystemStateSync c now st value env).ctrl.state = .BUSY := by
  unfold setSystemStateSync
  dsimp only
  split
  · left
    rw [setPartA_state]
  · split
    · left
      rw [setPartA_state]
    · split
      · right
        rfl
      · left
        rw [setPartA_state]

theorem reconcileField_wireOnly (c : Ctrl) (now : ℤ) (st : DictEntries)
    (respVal : DictValue) (env : List SendOutcome) :
    wireOnly (reconcileField c now st respVal env).events = true := by
  unfold reconcileField
  match hget : c.system_settings.get st with
  | none => rfl
  | some cur =>
    dsimp only
    split
    · exact setSync_wireOnly c now st cur env
    · rfl

theorem reconcileField_state (c : Ctrl) (now : ℤ) (st : DictEntries)
    (respVal : DictValue) (env : List SendOutcome) :
    (reconcileField c now st respVal env).ctrl.state = c.state
    ∨ (reconcileField c now st respVal env).ctrl.state = .BUSY := by
  unfold reconcileField
  match hget : c.system_settings.get st with
  | none => left; rfl
  | some cur =>
    dsimp only
    split
    · exact setSync_state c now st cur env
    · left
      rfl

theorem wireOnly_append (l1 l2 : List Event) :
    wireOnly (l1 ++ l2) = (wireOnly l1 && wireOnly l2) := by
  simp [wireOnly, List.all_append]

/-- Shape of the valid-response branch: some wire frames, then (on the
    no-exception path) the reconnect callback exactly when the prior state
    was DISCONNECTED, then at most one update callback; the resulting state
    is READY or BUSY. An exception cuts the list after the wire frames. -/
theorem refreshValid_shape (c0 : Ctrl) (now : ℤ) (prior : ControllerState)
    (r : FireplaceMessage) (env : List SendOutcome) (notify : Bool) :
    ∃ l1 n2,
      wireOnly l1 = true
      ∧ (n2 = [] ∨ n2 = [Event.controller_update])
      ∧ (((refreshValid c0 now prior r env notify).err = none
            ∧ (refreshValid c0 now prior r env notify).events
              = l1 ++ (if prior = .DISCONNECTED
                  then [Event.controller_reconnected] else []) ++ n2)
        ∨ ((refreshValid c0 now prior r env notify).err ≠ none
            ∧ (refreshValid c0 now prior r env notify).events = l1))
      ∧ ((refreshValid c0 now prior r env notify).ctrl.state = .READY
          ∨ (refreshValid c0 now prior r env notify).ctrl.state = .BUSY) := by
  have hbase : (statusReadonlyCopy c0 r).state = ControllerState.READY := rfl
  unfold refreshValid
  dsimp only
  split
  · next hprior =>
    refine ⟨[],
      (notifyPart (statusFullCopy (statusReadonlyCopy c0 r) r) now notify).2,
      rfl, notifyPart_events _ now notify, Or.inl ⟨rfl, ?_⟩, ?_⟩
    · simp [hprior]
    · left
      show (notifyPart (statusFullCopy (statusReadonlyCopy c0 r) r) now
        notify).1.state = ControllerState.READY
      rw [notifyPart_fst_state]
      rfl
  · next hprior =>
    set E1 := reconcileField (statusReadonlyCopy c0 r) now .DESIRED_TEMP
      (.int r.desired_temp) env with hE1
    have hs1 : E1.ctrl.state = .READY ∨ E1.ctrl.state = .BUSY := by
      rw [hE1]
      rcases reconcileField_state (statusReadonlyCopy c0 r) now .DESIRED_TEMP
        (.int r.desired_temp) env with h | h
      · left
        rw [h, hbase]
      · right
        exact h
    set E2 := reconcileField E1.ctrl now .FAN_MODE (.fan (responseFan r))
      E1.env with hE2
    have hs2 : E2.ctrl.state = .READY ∨ E2.ctrl.state = .BUSY := by
      rw [hE2]
      rcases reconcileField_state E1.ctrl now .FAN_MODE (.fan (responseFan r))
        E1.env with h | h
      · rw [h]
        exact hs1
      · right
        exact h
    set E3 := reconcileField E2.ctrl now .FIRE_IS_ON (.bool r.fire_is_on)
      E2.env with hE3
    have hs3 : E3.ctrl.state = .READY ∨ E3.ctrl.state = .BUSY := by
      rw [hE3]
      rcases reconcileField_state E2.ctrl now .FIRE_IS_ON (.bool r.fire_is_on)
        E2.env with h | h
      · rw [h]
        exact hs2
      · right
        exact h
    have hw1 : wireOnly E1.events = true := by
      rw [hE1]
      exact reconcileField_wireOnly _ _ _ _ _
    have hw2 : wireOnly E2.events = true := by
      rw [hE2]
      exact reconcileField_wireOnly _ _ _ _ _
    have hw3 : wireOnly E3.events = true := by
      rw [hE3]
      exact reconcileField_wireOnly _ _ _ _ _
    split
    · next er heq =>
      exact ⟨E1.events, [], hw1, Or.inl rfl, Or.inr ⟨by simp, by simp⟩, hs1⟩
    · split
      · next er heq =>
        refine ⟨E1.events ++ E2.events, [], ?_, Or.inl rfl,
          Or.inr ⟨by simp, by simp⟩, hs2⟩
        rw [wireOnly_append, hw1, hw2]
        rfl
      · split
        · next er heq =>
          refine ⟨E1.events ++ E2.events ++ E3.events, [], ?_, Or.inl rfl,
            Or.inr ⟨by simp, by simp⟩, hs3⟩
          rw [wireOnly_append, wireOnly_append, hw1, hw2, hw3]
          rfl
        · refine ⟨E1.events ++ E2.events ++ E3.events,
            (notifyPart E3.ctrl now notify).2, ?_,
            notifyPart_events _ now notify, Or.inl ⟨rfl, ?_⟩, ?_⟩
          · rw [wireOnly_append, wireOnly_append, hw1, hw2, hw3]
            rfl
          · simp
          · show (notifyPart E3.ctrl now notify).1.state = _ ∨
              (notifyPart E3.ctrl now notify).1.state = _
            rw [notifyPart_fst_state]
            exact hs3

theorem connFilter_wire_cons (cid : CommandID) (l : List Event) :
    connFilter (.wire cid :: l) = connFilter l := by
  simp [connFilter, isConnEvent]

theorem refreshValid_conn (c0 : Ctrl) (now : ℤ) (prior : ControllerState)
    (r : FireplaceMessage) (env : List SendOutcome) (notify : Bool) :
    ((refreshValid c0 now prior r env notify).ctrl.state = .READY
      ∨ (refreshValid c0 now prior r env notify).ctrl.state = .BUSY)
    ∧ ((refreshValid c0 now prior r env notify).err = none →
        connFilter (refreshValid c0 now prior r env notify).events
          = (if prior = .DISCONNECTED then [Event.controller_reconnected]
              else []))
    ∧ ((refreshValid c0 now prior r env notify).err ≠ none →
        connFilter (refreshValid c0 now prior r env notify).events = [])
    ∧ countEvent .controller_disconnected
        (refreshValid c0 now prior r env notify).events = 0
    ∧ countEvent .controller_reconnected
        (refreshValid c0 now prior r env notify).events
        = (if (refreshValid c0 now prior r env notify).err = none
              ∧ prior = .DISCONNECTED then 1 else 0) := by
  obtain ⟨l1, n2, hw, hn2, hcase, hstate⟩ :=
    refreshValid_shape c0 now prior r env notify
  have hl1 := wireOnly_no_conn l1 hw
  have hn2conn : connFilter n2 = []
      ∧ countEvent .controller_disconnected n2 = 0
      ∧ countEvent .controller_reconnected n2 = 0 := by
    rcases hn2 with h | h <;> subst h <;>
      simp [connFilter, countEvent, isConnEvent]
  refine ⟨hstate, ?_, ?_, ?_, ?_⟩
  · intro herr
    rcases hcase with ⟨_, hev⟩ | ⟨hne, _⟩
    · rw [hev, connFilter_append, connFilter_append, hl1.1, hn2conn.1]
      by_cases hd : prior = .DISCONNECTED <;>
        simp [hd, connFilter, isConnEvent]
    · exact absurd herr hne
  · intro hne
    rcases hcase with ⟨herr, _⟩ | ⟨_, hev⟩
    · exact absurd herr hne
    · rw [hev]
      exact hl1.1
  · rcases hcase with ⟨_, hev⟩ | ⟨_, hev⟩ <;> rw [hev]
    · rw [countEvent_append, countEvent_append, hl1.2.1, hn2conn.2.1]
      by_cases hd : prior = .DISCONNECTED <;> simp [hd, countEvent]
    · exact hl1.2.1
  · rcases hcase with ⟨herr, hev⟩ | ⟨hne, hev⟩ <;> rw [hev]
    · rw [countEvent_append, countEvent_append, hl1.2.2, hn2conn.2.2]
      rw [herr]
      by_cases hd : prior = .DISCONNECTED <;> simp [hd, countEvent]
    · rw [hl1.2.2]
      have hcond : ¬((refreshValid c0 now prior r env notify).err = none
          ∧ prior = .DISCONNECTED) := fun hk => hne hk.1
      simp [hcond]

theorem validStatusEnv_extract (env : List SendOutcome)
    (h : validStatusEnv env = true) :
    ∃ r rs, (popEnv env).1 = .ok (r :: rs) ∧ r.response_id = .STATUS := by
  unfold validStatusEnv at h
  match henv : (popEnv env).1 with
  | .ok (r :: rs) =>
    rw [henv] at h
    simp at h
    exact ⟨r, rs, rfl, h.2⟩
  | .ok [] =>
    rw [henv] at h
    simp at h
  | .connError =>
    rw [henv] at h
    simp at h

theorem validStatusEnv_false (env : List SendOutcome)
    (h : validStatusEnv env = false) :
    outcomeValid (popEnv env).1 .STATUS_PLEASE = false := by
  unfold validStatusEnv at h
  unfold outcomeValid
  match henv : (popEnv env).1 with
  | .ok (r :: rs) =>
    rw [henv] at h
    simp [expected_response] at h ⊢
    exact h
  | .ok [] => rfl
  | .connError => rfl

theorem requestStatus_valid2 (c : Ctrl) (now : ℤ) (env : List SendOutcome)
    (r : FireplaceMessage) (rs : List FireplaceMessage)
    (henv : (popEnv env).1 = .ok (r :: rs))
    (hid : r.response_id = expected_response .STATUS_PLEASE) :
    requestStatus c now env =
      ⟨{ c with last_response := now }, some r, [.wire .STATUS_PLEASE],
        (popEnv env).2⟩ := by
  unfold requestStatus
  dsimp only
  rw [henv]
  simp [hid]

/-- The valid-response decomposition of a refresh outside the busy window:
    the STATUS_PLEASE frame followed by the valid branch, acting on the
    record with last_response advanced, with the prior state saved. -/
theorem refresh_valid_decomp (c : Ctrl) (now : ℤ) (env : List SendOutcome)
    (notify : Bool)
    (hnb : ¬(c.state = .BUSY ∧ now < c.busy_end_time))
    (r : FireplaceMessage) (rs : List FireplaceMessage)
    (henv : (popEnv env).1 = .ok (r :: rs))
    (hid : r.response_id = .STATUS) :
    refreshSystem c now env notify =
      ⟨(refreshValid { c with last_response := now } now c.state r
          (popEnv env).2 notify).ctrl,
        .wire .STATUS_PLEASE ::
          (refreshValid { c with last_response := now } now c.state r
            (popEnv env).2 notify).events,
        (refreshValid { c with last_response := now } now c.state r
          (popEnv env).2 notify).env,
        (refreshValid { c with last_response := now } now c.state r
          (popEnv env).2 notify).err⟩ := by
  have hid2 : r.response_id = expected_response .STATUS_PLEASE := by
    rw [hid]
    rfl
  unfold refreshSystem
  rw [if_neg hnb, requestStatus_valid2 c now env r rs henv hid2]
  dsimp only
  rw [hid]
  simp

/-- One refresh step, for the alternation argument: with the invariant
    tying DISCONNECTED to an expired retry window, the step emits the
    reconnect callback exactly on leaving DISCONNECTED, the disconnect
    callback exactly on entering it, nothing on an exception, and
    re-establishes the invariant. -/
theorem refresh_alt_step (c : Ctrl) (now : ℤ) (env : List SendOutcome)
    (notify : Bool) (hInv : DiscInv c now) :
    ((refreshSystem c now env notify).err = none →
      ((c.state = .DISCONNECTED
          ∧ (refreshSystem c now env notify).ctrl.state = .DISCONNECTED
          ∧ connFilter (refreshSystem c now env notify).events = [])
      ∨ (c.state = .DISCONNECTED
          ∧ (refreshSystem c now env notify).ctrl.state ≠ .DISCONNECTED
          ∧ connFilter (refreshSystem c now env notify).events
              = [Event.controller_reconnected])
      ∨ (c.state ≠ .DISCONNECTED
          ∧ (refreshSystem c now env notify).ctrl.state = .DISCONNECTED
          ∧ connFilter (refreshSystem c now env notify).events
              = [Event.controller_disconnected])
      ∨ (c.state ≠ .DISCONNECTED
          ∧ (refreshSystem c now env notify).ctrl.state ≠ .DISCONNECTED
          ∧ connFilter (refreshSystem c now env notify).events = [])))
    ∧ ((refreshSystem c now env notify).err ≠ none →
        connFilter (refreshSystem c now env notify).events = [])
    ∧ DiscInv (refreshSystem c now env notify).ctrl now := by
  by_cases hbusy : c.state = .BUSY ∧ now < c.busy_end_time
  · rw [refresh_busy c now env notify hbusy.1 hbusy.2]
    refine ⟨?_, fun h => absurd rfl h, hInv⟩
    intro _
    exact Or.inr (Or.inr (Or.inr ⟨by simp [hbusy.1], by simp [hbusy.1], rfl⟩))
  · by_cases hval : validStatusEnv env = true
    · obtain ⟨r, rs, henv, hid⟩ := validStatusEnv_extract env hval
      rw [refresh_valid_decomp c now env notify hbusy r rs henv hid]
      have hc := refreshValid_conn { c with last_response := now } now c.state
        r (popEnv env).2 notify
      dsimp only
      refine ⟨?_, ?_, ?_⟩
      · intro herr
        have hcf := hc.2.1 herr
        by_cases hd : c.state = .DISCONNECTED
        · refine Or.inr (Or.inl ⟨hd, ?_, ?_⟩)
          · rcases hc.1 with h | h <;> rw [h] <;> simp
          · rw [if_pos hd] at hcf
            rw [connFilter_wire_cons]
            exact hcf
        · refine Or.inr (Or.inr (Or.inr ⟨hd, ?_, ?_⟩))
          · rcases hc.1 with h | h <;> rw [h] <;> simp
          · rw [if_neg hd] at hcf
            rw [connFilter_wire_cons]
            exact hcf
      · intro hne
        have hcf := hc.2.2.1 hne
        rw [connFilter_wire_cons]
        exact hcf
      · intro hd
        rcases hc.1 with h | h <;> rw [h] at hd <;> simp at hd
    · have hvf : validStatusEnv env = false := by
        revert hval
        cases validStatusEnv env <;> simp
      have hout := validStatusEnv_false env hvf
      rw [refresh_invalid c now env notify hbusy hout]
      by_cases ht : now - c.last_response < RETRY_TIMEOUT
      · rw [if_pos ht]
        refine ⟨?_, fun h => absurd rfl h, ?_⟩
        · intro _
          by_cases hd : c.state = .DISCONNECTED
          · exact absurd (hInv hd) (by omega)
          · exact Or.inr (Or.inr (Or.inr ⟨hd, by simp, rfl⟩))
        · intro hd
          simp at hd
      · rw [if_neg ht]
        refine ⟨?_, fun h => absurd rfl h, ?_⟩
        · intro _
          by_cases hd : c.state = .DISCONNECTED
          · refine Or.inl ⟨hd, rfl, ?_⟩
            simp [connFilter, isConnEvent, hd]
          · refine Or.inr (Or.inr (Or.inl ⟨hd, rfl, ?_⟩))
            simp [connFilter, isConnEvent, hd]
        · intro _
          show RETRY_TIMEOUT ≤ now - c.last_response
          omega

/-- One refresh call with the DISCONNECTED invariant: the connectivity
    events are exactly the ones announcing a change of the DISCONNECTED
    flag on an exception-free call, a call that raises emits none, and a
    transition into DISCONNECTED only happens on an invalid poll with the
    retry window expired. -/
theorem refresh_conn_exact (d : Ctrl) (now : ℤ) (env : List SendOutcome)
    (notify : Bool) (hInv : DiscInv d now) :
    ((refreshSystem d now env notify).err = none →
      connFilter (refreshSystem d now env notify).events =
        (if d.state = .DISCONNECTED then
            (if (refreshSystem d now env notify).ctrl.state = .DISCONNECTED
              then [] else [Event.controller_reconnected])
          else
            (if (refreshSystem d now env notify).ctrl.state = .DISCONNECTED
              then [Event.controller_disconnected] else [])))
    ∧ ((refreshSystem d now env notify).err ≠ none →
        connFilter (refreshSystem d now env notify).events = [])
    ∧ ((refreshSystem d now env notify).ctrl.state = .DISCONNECTED →
        d.state ≠ .DISCONNECTED →
        validStatusEnv env = false
          ∧ RETRY_TIMEOUT ≤ now - d.last_response) := by
  by_cases hbusy : d.state = .BUSY ∧ now < d.busy_end_time
  · rw [refresh_busy d now env notify hbusy.1 hbusy.2]
    dsimp only
    refine ⟨?_, fun h => absurd rfl h, ?_⟩
    · intro _
      simp [hbusy.1, connFilter]
    · intro hD
      rw [hbusy.1] at hD
      simp at hD
  · by_cases hval : validStatusEnv env = true
    · obtain ⟨r, rs, henv, hid⟩ := validStatusEnv_extract env hval
      rw [refresh_valid_decomp d now env notify hbusy r rs henv hid]
      have hc := refreshValid_conn { d with last_response := now } now d.state
        r (popEnv env).2 notify
      have hne : (refreshValid { d with last_response := now } now d.state r
          (popEnv env).2 notify).ctrl.state ≠ .DISCONNECTED := by
        rcases hc.1 with h | h <;> rw [h] <;> simp
      dsimp only
      refine ⟨?_, ?_, ?_⟩
      · intro herr
        rw [connFilter_wire_cons, hc.2.1 herr]
        simp only [if_neg hne]
      · intro hnerr
        rw [connFilter_wire_cons]
        exact hc.2.2.1 hnerr
      · intro hD
        exact absurd hD hne
    · have hvf : validStatusEnv env = false := by
        revert hval
        cases validStatusEnv env <;> simp
      have hout := validStatusEnv_false env hvf
      rw [refresh_invalid d now env notify hbusy hout]
      by_cases ht : now - d.last_response < RETRY_TIMEOUT
      · rw [if_pos ht]
        dsimp only
        refine ⟨?_, fun h => absurd rfl h, ?_⟩
        · intro _
          by_cases hd : d.state = .DISCONNECTED
          · exact absurd (hInv hd) (by omega)
          · rw [if_neg hd]
            simp [connFilter, isConnEvent]
        · intro hD
          simp at hD
      · rw [if_neg ht]
        dsimp only
        refine ⟨?_, fun h => absurd rfl h, ?_⟩
        · intro _
          by_cases hd : d.state = .DISCONNECTED
          · rw [if_pos hd]
            simp [connFilter, isConnEvent, hd]
          · rw [if_neg hd]
            simp [connFilter, isConnEvent, hd]
        · intro _ _
          exact ⟨hvf, by omega⟩

/-- Folding any invariant-respecting sequence of refresh calls with
    non-decreasing clocks, the disconnect and reconnect callbacks strictly
    alternate, the first being controller_disconnected when the run does
    not begin DISCONNECTED. -/
theorem runRefreshes_alt (c : Ctrl) (t0 : ℤ) (steps : List RefreshStep)
    (hInv : DiscInv c t0)
    (hch : List.Chain (fun a b => a ≤ b) t0 (steps.map RefreshStep.now)) :
    altFrom (decide (¬c.state = .DISCONNECTED))
      (connFilter (runRefreshes c steps).events) = true := by
  induction steps generalizing c t0 with
  | nil => cases hb : decide (¬c.state = ControllerState.DISCONNECTED) <;> rfl
  | cons s rest ih =>
    simp only [List.map_cons] at hch
    cases hch with
    | cons hle hch2 =>
      have hInv2 : DiscInv c s.now := fun hd => by
        have := hInv hd
        omega
      have hstep := refresh_alt_step c s.now s.env s.notify hInv2
      unfold runRefreshes
      dsimp only
      match herr : (refreshSystem c s.now s.env s.notify).err with
      | some er =>
        rw [hstep.2.1 (by rw [herr]; simp)]
        cases hb : decide (¬c.state = ControllerState.DISCONNECTED) <;> rfl
      | none =>
        rw [connFilter_append]
        have hih := ih (refreshSystem c s.now s.env s.notify).ctrl s.now
          hstep.2.2 hch2
        rcases hstep.1 herr with ⟨hd, hd2, hf⟩ | ⟨hd, hd2, hf⟩
          | ⟨hd, hd2, hf⟩ | ⟨hd, hd2, hf⟩ <;> rw [hf]
        · have hflag : decide (¬c.state = .DISCONNECTED) = false := by
            simp [hd]
          have hflag2 : decide
              (¬(refreshSystem c s.now s.env s.notify).ctrl.state
                = .DISCONNECTED) = false := by simp [hd2]
          rw [hflag2] at hih
          rw [List.nil_append, hflag]
          exact hih
        · have hflag : decide (¬c.state = .DISCONNECTED) = false := by
            simp [hd]
          have hflag2 : decide
              (¬(refreshSystem c s.now s.env s.notify).ctrl.state
                = .DISCONNECTED) = true := by simp [hd2]
          rw [hflag2] at hih
          rw [hflag]
          exact hih
        · have hflag : decide (¬c.state = .DISCONNECTED) = true := by
            simp [hd]
          have hflag2 : decide
              (¬(refreshSystem c s.now s.env s.notify).ctrl.state
                = .DISCONNECTED) = false := by simp [hd2]
          rw [hflag2] at hih
          rw [hflag]
          exact hih
        · have hflag : decide (¬c.state = .DISCONNECTED) = true := by
            simp [hd]
          have hflag2 : decide
              (¬(refreshSystem c s.now s.env s.notify).ctrl.state
                = .DISCONNECTED) = true := by simp [hd2]
          rw [hflag2] at hih
          rw [List.nil_append, hflag]
          exact hih

/-- C6: over any invariant-respecting run of the poll loop with a
    non-decreasing clock, controller_disconnected and
    controller_reconnected strictly alternate starting with
    controller_disconnected; and per refresh call, an exception-free call
    emits exactly the event matching the change of the DISCONNECTED flag
    (controller_disconnected exactly once on entering, which only happens
    on an invalid poll at least RETRY_TIMEOUT after the last valid reply,
    controller_reconnected exactly once on leaving, neither otherwise),
    while a call that raises emits neither, even when it leaves
    DISCONNECTED on a valid reply. -/
theorem c6_connectivity_events_alternate (c : Ctrl) (t0 : ℤ)
    (steps : List RefreshStep) (hInv : DiscInv c t0)
    (hch : List.Chain (fun a b => a ≤ b) t0 (steps.map RefreshStep.now)) :
    altFrom (decide (¬c.state = .DISCONNECTED))
        (connFilter (runRefreshes c steps).events) = true
    ∧ ∀ (d : Ctrl) (now : ℤ) (env : List SendOutcome) (notify : Bool),
        DiscInv d now →
        ((refreshSystem d now env notify).err = none →
          connFilter (refreshSystem d now env notify).events =
            (if d.state = .DISCONNECTED then
                (if (refreshSystem d now env notify).ctrl.state
                    = .DISCONNECTED
                  then [] else [Event.controller_reconnected])
              else
                (if (refreshSystem d now env notify).ctrl.state
                    = .DISCONNECTED
                  then [Event.controller_disconnected] else [])))
        ∧ ((refreshSystem d now env notify).err ≠ none →
            connFilter (refreshSystem d now env notify).events = [])
        ∧ ((refreshSystem d now env notify).ctrl.state = .DISCONNECTED →
            d.state ≠ .DISCONNECTED →
            validStatusEnv env = false
              ∧ RETRY_TIMEOUT ≤ now - d.last_response) :=
  ⟨runRefreshes_alt c t0 steps hInv hch,
    fun d now env notify hI => refresh_conn_exact d now env notify hI⟩

/-- C6 counterexample to the reconnect clause of the original claim: a
    DISCONNECTED controller with the retry window expired receives a valid
    STATUS reply, leaves DISCONNECTED, and yet controller_reconnected is
    never emitted, because the reconciliation of the missing DESIRED_TEMP
    entry raises KeyError first. -/
theorem c6_valid_exit_without_reconnected_counterexample :
    DiscInv c6DiscCtrl 100
    ∧ c6DiscCtrl.state = .DISCONNECTED
    ∧ (runRefreshes c6DiscCtrl
        [⟨100, [.ok [statusMsg]], true⟩]).ctrl.state ≠ .DISCONNECTED
    ∧ countEvent .controller_reconnected
        (runRefreshes c6DiscCtrl [⟨100, [.ok [statusMsg]], true⟩]).events = 0
    ∧ (runRefreshes c6DiscCtrl [⟨100, [.ok [statusMsg]], true⟩]).err
        = some .keyError :=
  ⟨fun _ => by decide, by decide, by decide, by decide, by decide⟩

theorem c6_connectivity_events_alternate_witness :
    DiscInv (initAttrs (newController "S" "ip")) 0
    ∧ List.Chain (fun a b => a ≤ b) 0
        (([⟨40, [.connError], false⟩,
            ⟨80, [.connError], false⟩] : List RefreshStep).map
          RefreshStep.now)
    ∧ altFrom
        (decide (¬(initAttrs (newController "S" "ip")).state
          = ControllerState.DISCONNECTED))
        (connFilter (runRefreshes (initAttrs (newController "S" "ip"))
          [⟨40, [.connError], false⟩, ⟨80, [.connError], false⟩]).events)
        = true := by
  have hInv : DiscInv (initAttrs (newController "S" "ip")) 0 :=
    fun h => absurd h (by decide)
  have hch : List.Chain (fun a b => a ≤ b) 0
      (([⟨40, [.connError], false⟩,
          ⟨80, [.connError], false⟩] : List RefreshStep).map
        RefreshStep.now) :=
    List.Chain.cons (by decide) (List.Chain.cons (by decide) List.Chain.nil)
  exact ⟨hInv, hch,
    (c6_connectivity_events_alternate (initAttrs (newController "S" "ip")) 0
      [⟨40, [.connError], false⟩, ⟨80, [.connError], false⟩] hInv hch).1⟩

/-! ## C8 -/

/-- C8: a non-sync setter call whose new value equals the cached live value
    is a complete no-op: no wire command, no listener event, and the live
    cache, prior snapshot and controller state are unchanged. In
    particular, of two successive set_fan AUTO calls from a non-AUTO READY
    start (with the first call fully acknowledged and its follow-up STATUS
    reporting both fan booleans off), only the first produces wire
    traffic. -/
theorem c8_equal_value_setter_is_noop :
    (∀ (c : Ctrl) (now : ℤ) (st : DictEntries) (v : DictValue)
        (env : List SendOutcome),
        c.system_settings.get st = some v →
        setSystemState c now st v false env = ⟨c, [], env, none⟩)
    ∧ ∀ (c : Ctrl) (now now2 : ℤ) (f : Fan) (a1 a2 r : FireplaceMessage)
        (env2 : List SendOutcome),
        c.state = .READY → c.system_settings.get .FAN_MODE = some (.fan f) →
        f ≠ .AUTO →
        a1.response_id = .FAN_BOOST_OFF_ACK →
        a2.response_id = .FLAME_EFFECT_OFF_ACK →
        r.response_id = .STATUS → r.fan_boost_is_on = false →
        r.flame_effect = false →
        (set_fan c now .AUTO [.ok [a1], .ok [a2], .ok [r]]).events.head?
            = some (.wire .FAN_BOOST_OFF)
        ∧ set_fan (set_fan c now .AUTO [.ok [a1], .ok [a2], .ok [r]]).ctrl now2
              .AUTO env2
            = ⟨(set_fan c now .AUTO [.ok [a1], .ok [a2], .ok [r]]).ctrl, [],
                env2, none⟩ := by
  constructor
  · exact fun c now st v env h => setState_noop c now st v env h
  · intro c now now2 f a1 a2 r env2 hst hfan hne h1 h2 hr hb hfl
    obtain ⟨hhead, hauto⟩ :=
      set_fan_auto_scenario c now f a1 a2 r hst hfan hne h1 h2 hr hb hfl
    exact ⟨hhead, setState_noop _ now2 .FAN_MODE (.fan .AUTO) env2 hauto⟩

/-- Witness for C8: a matching-value setter call on the sample controller,
    and the two-call set_fan AUTO scenario from a FAN_BOOST start. -/
theorem c8_equal_value_setter_is_noop_witness :
    (setSystemState sampleReady 60 .DESIRED_TEMP (.int 22) false []
        = ⟨sampleReady, [], [], none⟩)
    ∧ ((set_fan sampleReadyBoost 60 .AUTO
          [.ok [ackMsg .FAN_BOOST_OFF_ACK], .ok [ackMsg .FLAME_EFFECT_OFF_ACK],
            .ok [statusMsg]]).events.head? = some (.wire .FAN_BOOST_OFF)
        ∧ set_fan (set_fan sampleReadyBoost 60 .AUTO
              [.ok [ackMsg .FAN_BOOST_OFF_ACK], .ok [ackMsg .FLAME_EFFECT_OFF_ACK],
                .ok [statusMsg]]).ctrl 70 .AUTO [.connError]
            = ⟨(set_fan sampleReadyBoost 60 .AUTO
                  [.ok [ackMsg .FAN_BOOST_OFF_ACK], .ok [ackMsg .FLAME_EFFECT_OFF_ACK],
                    .ok [statusMsg]]).ctrl, [], [.connError], none⟩) :=
  ⟨c8_equal_value_setter_is_noop.1 sampleReady 60 .DESIRED_TEMP (.int 22) []
      (by decide),
    c8_equal_value_setter_is_noop.2 sampleReadyBoost 60 70 .FAN_BOOST
      (ackMsg .FAN_BOOST_OFF_ACK) (ackMsg .FLAME_EFFECT_OFF_ACK) statusMsg
      [.connError] (by decide) (by decide) (by decide) (by decide) (by decide)
      (by decide) (by decide) (by decide)⟩

end Pescea
